import Mathlib

/-!
Verification of the Mafia game-orchestration core (`src/mafia/game_state.py`,
`src/llm_games/mafia/environment.py`, `src/llm_games/mafia/player.py`,
`src/mafia/mechanics/roles.py`) against its natural-language specification.

The Python code is shallowly embedded: Python `set`s of names become `List String`
with set-style operations (membership-guarded insert, `erase`), Python `dict`s become
association lists (`List (key × value)`) with first-occurrence lookup/replace
semantics mirroring insertion-ordered dicts, and Python truthiness on strings
(`if target:`) is modelled as `t ≠ ""`.  Debug-only fields that no verified
property reads (`game_id`, `phase_history`, `discussion_token_budgets`,
`messages_said`/`messages_received`) are omitted from the state records.
-/

set_option autoImplicit false

namespace Mafia

/-- `Faction` enum from `src/mafia/enums.py`. -/
inductive Faction where
  | town
  | mafia
  | neutral
deriving DecidableEq, Repr

/-- Python `Faction.value`. -/
def Faction.value : Faction → String
  | .town => "town"
  | .mafia => "mafia"
  | .neutral => "neutral"

/-- `GamePhase` enum from `src/mafia/enums.py`. -/
inductive GamePhase where
  | night
  | dayDiscussion
  | voting
  | defense
  | finalVote
  | gameOver
deriving DecidableEq, Repr

/-- Python `GamePhase.<member>.name` (the enum member name). -/
def GamePhase.pname : GamePhase → String
  | .night => "NIGHT"
  | .dayDiscussion => "DAY_DISCUSSION"
  | .voting => "VOTING"
  | .defense => "DEFENSE"
  | .finalVote => "FINAL_VOTE"
  | .gameOver => "GAME_OVER"

/-- The closed set of role classes from `src/mafia/mechanics/roles.py`. -/
inductive RoleKind where
  | villager
  | cop
  | doctor
  | goon
  | godfather
  | roleBlocker
  | consigliere
deriving DecidableEq, Repr

/-- `Role.name` as set by each role's `__init__`. -/
def RoleKind.name : RoleKind → String
  | .villager => "Villager"
  | .cop => "Cop"
  | .doctor => "Doctor"
  | .goon => "Goon"
  | .godfather => "Godfather"
  | .roleBlocker => "RoleBlocker"
  | .consigliere => "Consigliere"

/-- `Role.faction` as set by each role's `__init__`. -/
def RoleKind.faction : RoleKind → Faction
  | .villager => .town
  | .cop => .town
  | .doctor => .town
  | .goon => .mafia
  | .godfather => .mafia
  | .roleBlocker => .mafia
  | .consigliere => .mafia

/-- `Role.can_act_at_night`: true exactly for the role classes overriding
`night_action` (Cop, Doctor, Godfather, RoleBlocker, Consigliere). -/
def RoleKind.canActAtNight : RoleKind → Bool
  | .villager => false
  | .goon => false
  | _ => true

/-- One record appended to `Player.memory` (`roles.py`: Cop appends an
`investigation_result` dict, Consigliere a `role_peek` dict). -/
inductive MemoryEntry where
  | investigationResult (day : Nat) (target : String) (result : String)
  | rolePeek (day : Nat) (target : String) (role : String)
deriving DecidableEq, Repr

/-- `Player` mutable state from `src/llm_games/mafia/player.py` (the fields the
verified operations read or write). -/
structure PlayerRec where
  name : String
  role : RoleKind
  faction : Faction
  alive : Bool
  night_target : Option String
  is_roleblocked : Bool
  protected_by : Option String
  vote : Option String
  trial_vote : Option Bool
  can_speak_today : Bool
  has_accused_today : Bool
  predictions : List (String × String)
  questions_asked_today : List (String × Nat)
  whispers_sent_today : List (String × String)
  memory : List MemoryEntry
deriving DecidableEq, Repr

/-- `Player.__init__(name, role)`. -/
def mkPlayer (name : String) (role : RoleKind) : PlayerRec :=
  { name := name
    role := role
    faction := role.faction
    alive := true
    night_target := none
    is_roleblocked := false
    protected_by := none
    vote := none
    trial_vote := none
    can_speak_today := true
    has_accused_today := false
    predictions := []
    questions_asked_today := []
    whispers_sent_today := []
    memory := [] }

/-- `Player.reset_night_state`. -/
def PlayerRec.resetNightState (p : PlayerRec) : PlayerRec :=
  { p with night_target := none, is_roleblocked := false, protected_by := none }

/-- `Player.reset_day_state`. -/
def PlayerRec.resetDayState (p : PlayerRec) : PlayerRec :=
  { p with vote := none, trial_vote := none, has_accused_today := false,
           questions_asked_today := [], whispers_sent_today := [],
           can_speak_today := true }

/-- `Player.reset_for_new_game`. -/
def PlayerRec.resetForNewGame (p : PlayerRec) : PlayerRec :=
  { (p.resetNightState.resetDayState) with alive := true, memory := [], predictions := [] }

/-- `Player.can_act_at_night`. -/
def PlayerRec.canActAtNight (p : PlayerRec) : Bool :=
  p.alive && p.role.canActAtNight

/-- `Player.can_speak`. -/
def PlayerRec.canSpeak (p : PlayerRec) : Bool :=
  p.alive && p.can_speak_today

/-- `GameMessage` record from `src/mafia/game_state.py`. -/
structure GameMessage where
  msg_type : String
  sender : String
  content : String
  recipients : Option (List String)
  phase : GamePhase
  day : Nat
deriving DecidableEq, Repr

/-- One entry of `GameState.hidden_log` (`GameState.log_hidden`). -/
structure HiddenEntry where
  actor : String
  info : String
  phase : String
  day : Nat
  turn : Nat
deriving DecidableEq, Repr

/-- A submitted night action intent: the dicts produced by the role
`night_action` methods in `roles.py` (`{"type": ..., "target": ..., ["result"]}`). -/
structure NightAction where
  type : String
  target : Option String
  result : Option String
deriving DecidableEq, Repr

/-- The configuration keys read by the embedded core (`game_config` /
environment `config`), with the defaults the Python `.get` calls supply. -/
structure Config where
  lynch_defense_enabled : Bool
  cop_speaks_first : Bool
  min_discussion_turns : Nat
  godfather_detectable : Bool
  doctor_can_self_heal : Bool
deriving DecidableEq, Repr

/-- The default configuration (every `config.get(key, default)` default). -/
def defaultConfig : Config :=
  { lynch_defense_enabled := true
    cop_speaks_first := false
    min_discussion_turns := 2
    godfather_detectable := false
    doctor_can_self_heal := true }

-- -------------------------------------------------------------------
-- Association-list helpers: the shallow embedding of Python dicts.
-- `alookup` is keyed lookup, `aset` is `d[k] = v` (replace the existing
-- binding in place, else append, matching insertion-ordered dicts),
-- `adel` is `del d[k]`.
-- -------------------------------------------------------------------

/-- Dict lookup `d.get(k)`. -/
def alookup {β : Type} (k : String) : List (String × β) → Option β
  | [] => none
  | e :: r => if e.1 = k then some e.2 else alookup k r

/-- Dict assignment `d[k] = v`. -/
def aset {β : Type} (k : String) (v : β) : List (String × β) → List (String × β)
  | [] => [(k, v)]
  | e :: r => if e.1 = k then (k, v) :: r else e :: aset k v r

/-- Dict deletion `del d[k]` (for a key known to be present at most once). -/
def adel {β : Type} (k : String) : List (String × β) → List (String × β)
  | [] => []
  | e :: r => if e.1 = k then r else e :: adel k r

/-- Python set insertion `s.add(x)` on a list-modelled set. -/
def setAdd (l : List String) (x : String) : List String :=
  if x ∈ l then l else l ++ [x]

/-- The first half of `update_vote_counts`: `if old_target and old_target in
self.accusation_counts: self.accusation_counts[old_target] -= 1; if
self.accusation_counts[old_target] <= 0: del self.accusation_counts[old_target]`
(`old_target` truthiness is `o ≠ ""`). -/
def decOldTarget (counts : List (String × Int)) (o : String) : List (String × Int) :=
  if o ≠ "" ∧ (alookup o counts).isSome then
    let k := (alookup o counts).getD 0 - 1
    let counts1 := aset o k counts
    if k ≤ 0 then adel o counts1 else counts1
  else counts

/-- Number of entries of a votes dict currently pointing at `t`
(`|{voter : votes_for_accusation[voter] == t}|` when the keys are distinct). -/
def cntVotes (votes : List (String × String)) (t : String) : Nat :=
  (votes.filter (fun e => e.2 = t)).length

/-- `GameState` from `src/mafia/game_state.py` (the authoritative data store),
restricted to the fields the verified operations read or write.
`turn_context` is attached dynamically to the state object by
`environment.py`; it is modelled as an ordinary field here. -/
structure GameState where
  players : List PlayerRec
  game_config : Config
  phase : GamePhase
  day_count : Nat
  turn_number_in_phase : Nat
  current_player_turn : Option String
  alive_players : List String
  dead_players : List String
  messages : List GameMessage
  hidden_log : List HiddenEntry
  votes_for_accusation : List (String × String)
  accusation_counts : List (String × Int)
  player_on_trial : Option String
  votes_for_lynch : List (String × Bool)
  night_actions_submitted : List (String × NightAction)
  night_action_results : List (String × NightAction)
  game_over : Bool
  winner : Option Faction
  final_player_roles : List (String × String)
  turn_context : Option String
deriving DecidableEq, Repr

namespace GameState

/-- The tuple `MESSAGE_TYPES` from `game_state.py`. -/
def validMsgType (t : String) : Bool :=
  t = "system" || t = "public" || t = "whisper" || t = "vote" || t = "death_announcement"

/-- `GameState.log_message`. -/
def logMessage (s : GameState) (sender content : String)
    (recipients : Option (List String)) (msgType : String) : GameState :=
  let mt := if validMsgType msgType then msgType else "public"
  { s with messages := s.messages ++
      [{ msg_type := mt, sender := sender, content := content,
         recipients := recipients, phase := s.phase, day := s.day_count }] }

/-- `GameState.log_hidden`. -/
def logHidden (s : GameState) (actor info : String) : GameState :=
  { s with hidden_log := s.hidden_log ++
      [{ actor := actor, info := info, phase := s.phase.pname,
         day := s.day_count, turn := s.turn_number_in_phase }] }

/-- `GameState.get_player` (first player with the given name). -/
def getPlayer (s : GameState) (name : String) : Option PlayerRec :=
  s.players.find? (fun p => p.name = name)

/-- `GameState.is_alive`. -/
def isAlive (s : GameState) (name : String) : Bool :=
  name ∈ s.alive_players

/-- Apply `f` to the first player with the given name (the Python code mutates
the object returned by `get_player`). -/
def updatePlayer (f : PlayerRec → PlayerRec) (name : String) :
    List PlayerRec → List PlayerRec
  | [] => []
  | p :: r => if p.name = name then f p :: r else p :: updatePlayer f name r

/-- The set (deduplicated name list) `mafia_alive` computed by `check_game_end`. -/
def mafiaAliveNames (s : GameState) : List String :=
  ((s.players.filter (fun p => p.alive && p.faction == Faction.mafia)).map (·.name)).dedup

/-- The set (deduplicated name list) `town_alive` computed by `check_game_end`. -/
def townAliveNames (s : GameState) : List String :=
  ((s.players.filter (fun p => p.alive && p.faction == Faction.town)).map (·.name)).dedup

/-- `GameState.check_game_end`: returns the updated state and the boolean the
Python method returns. -/
def checkGameEnd (s : GameState) : GameState × Bool :=
  if s.game_over then (s, true)
  else
    let mafiaAlive := mafiaAliveNames s
    let townAlive := townAliveNames s
    let winner : Option Faction :=
      if mafiaAlive.isEmpty then some .town
      else if townAlive.length ≤ mafiaAlive.length then some .mafia
      else none
    match winner with
    | some w =>
        let s := { s with game_over := true, winner := some w, phase := .gameOver,
                          final_player_roles := s.players.map (fun (p : PlayerRec) => (p.name, p.role.name)) }
        let s := s.logMessage "system" ("Game Over! Winner: " ++ w.value.toUpper) none "system"
        let s := s.logHidden "system" "Final Roles recorded"
        (s, true)
    | none => (s, false)

/-- The promotion scan of `_promote_goon_to_gf`: find the first alive Goon in
players-list order and replace its role with Godfather (faction re-synced);
returns the updated list and the promoted player's name. -/
def promoteFirstGoon (alive : List String) : List PlayerRec → Option (List PlayerRec × String)
  | [] => none
  | p :: r =>
      if p.name ∈ alive ∧ p.role = RoleKind.goon then
        some ({ p with role := .godfather, faction := Faction.mafia } :: r, p.name)
      else
        match promoteFirstGoon alive r with
        | some (r', n) => some (p :: r', n)
        | none => none

/-- `GameState._promote_goon_to_gf`. -/
def promoteGoonToGf (s : GameState) (deadGfName : String) : GameState :=
  match promoteFirstGoon s.alive_players s.players with
  | some (players', promotedName) =>
      let s := { s with players := players' }
      let s := s.logMessage "system" (promotedName ++ " has been promoted to Godfather!") none "system"
      s.logHidden promotedName ("Promoted to Godfather after " ++ deadGfName ++ " death")
  | none => s.logHidden "system" ("No Goon available to promote after " ++ deadGfName ++ " died.")

/-- `GameState.kill_player`. -/
def killPlayer (s : GameState) (name reason : String) : GameState :=
  if name ∉ s.alive_players then s
  else
    match s.getPlayer name with
    | none => s
    | some player =>
        let s := { s with alive_players := s.alive_players.erase name,
                          dead_players := setAdd s.dead_players name,
                          players := updatePlayer (fun p => { p with alive := false }) name s.players }
        let s := s.logMessage "system"
          (name ++ " (" ++ player.role.name ++ ") has died (" ++ reason ++ ").")
          none "death_announcement"
        let s := s.logHidden "system" (name ++ " died. Reason: " ++ reason)
        let s := if player.role = RoleKind.godfather then s.promoteGoonToGf name else s
        (s.checkGameEnd).1

/-- `GameState.initialize` (seeding from the players list; the constructor plus
`initialize()` determine every modelled field). -/
def initState (players : List PlayerRec) (cfg : Config) : GameState :=
  let s : GameState :=
    { players := players.map PlayerRec.resetForNewGame
      game_config := cfg
      phase := .night
      day_count := 0
      turn_number_in_phase := 0
      current_player_turn := none
      alive_players := (players.map (·.name)).dedup
      dead_players := []
      messages := []
      hidden_log := []
      votes_for_accusation := []
      accusation_counts := []
      player_on_trial := none
      votes_for_lynch := []
      night_actions_submitted := []
      night_action_results := []
      game_over := false
      winner := none
      final_player_roles := []
      turn_context := none }
  let s := s.logMessage "system" "Game started." none "system"
  let s := s.logHidden "system" "Game ID recorded"
  s.logHidden "system" "Initial Roles recorded"

/-- `GameState.update_vote_counts(voter, old_target, new_target)`. -/
def updateVoteCounts (s : GameState) (voter : String) (oldTarget : Option String)
    (newTarget : String) : GameState :=
  let counts :=
    match oldTarget with
    | some o => decOldTarget s.accusation_counts o
    | none => s.accusation_counts
  let counts := aset newTarget ((alookup newTarget counts).getD 0 + 1) counts
  { s with accusation_counts := counts,
           votes_for_accusation := aset voter newTarget s.votes_for_accusation }

/-- `MafiaEnvironment._resolve_lynch` (`src/llm_games/mafia/environment.py`):
it reads and writes only `self.state`, so it is embedded as a `GameState`
operation. -/
def resolveLynch (s : GameState) : GameState :=
  match s.player_on_trial with
  | none => s.logHidden "system" "No player on trial, skipping lynch resolution."
  | some accused =>
      if accused = "" then
        s.logHidden "system" "No player on trial, skipping lynch resolution."
      else
        let guilty := (s.votes_for_lynch.filter (fun e => e.2 = true)).length
        let innocent := s.votes_for_lynch.length - guilty
        let totalAlive := s.alive_players.length
        let needed := totalAlive / 2 + 1
        let s1 := s.logMessage "system"
          ("Vote Results for " ++ accused ++ ": Guilty=" ++ toString guilty ++
           ", Innocent=" ++ toString innocent ++ ". Need " ++ toString needed ++ " to lynch.")
          none "public"
        let s1 := s1.logHidden "system" "Final Votes recorded"
        let s2 :=
          if needed ≤ guilty then
            let sA := s1.logMessage "system"
              ("The town has decided to lynch " ++ accused ++ "!") none "public"
            sA.killPlayer accused "lynched"
          else
            s1.logMessage "system"
              ("The vote is inconclusive, sparing " ++ accused ++ ".") none "public"
        { s2 with player_on_trial := none }

/-- Python `', '.join(l)`. -/
def joinComma : List String → String
  | [] => ""
  | [x] => x
  | x :: r => x ++ ", " ++ joinComma r

/-- Code-point lexicographic comparison (Python string `<=`). -/
def charListLe : List Char → List Char → Bool
  | [], _ => true
  | _ :: _, [] => false
  | a :: as, b :: bs =>
      if a.toNat < b.toNat then true
      else if b.toNat < a.toNat then false
      else charListLe as bs

/-- Insertion into a sorted list of strings. -/
def insertSorted (x : String) : List String → List String
  | [] => [x]
  | y :: r => if charListLe x.toList y.toList = true then x :: y :: r
              else y :: insertSorted x r

/-- Python `sorted(names)`. -/
def sortStrings (l : List String) : List String := l.foldr insertSorted []

/-- Python f-string rendering of an optional string (`None` when absent). -/
def optStr (o : Option String) : String := o.getD "None"

/-- The guard `if target and self.state.is_alive(target)` used throughout
`_resolve_night`: yields the target name when it is truthy and alive. -/
def truthyAliveTarget (s : GameState) (tgt : Option String) : Option String :=
  match tgt with
  | some t => if t ≠ "" ∧ s.isAlive t = true then some t else none
  | none => none

/-- The set `roleblocked_players` computed by the first loop of
`_resolve_night` (alive actors' `roleblock` submissions on truthy alive
targets). -/
def roleblockedOf (s : GameState) : List String :=
  (s.night_actions_submitted.filterMap (fun e =>
    if s.isAlive e.1 = true then
      if e.2.type = "roleblock" then truthyAliveTarget s e.2.target else none
    else none)).dedup

/-- The set `blackmailed_players` computed by the first loop of
`_resolve_night`. -/
def blackmailedOf (s : GameState) : List String :=
  (s.night_actions_submitted.filterMap (fun e =>
    if s.isAlive e.1 = true then
      if e.2.type = "blackmail" then truthyAliveTarget s e.2.target else none
    else none)).dedup

/-- One iteration of the protection loop of `_resolve_night` over the
accumulating `protected` dict: non-roleblocked alive actors' `protect`
submissions on truthy alive targets, first protector per target. -/
def protectStep (s : GameState) (acc : List (String × String))
    (e : String × NightAction) : List (String × String) :=
  if e.1 ∈ roleblockedOf s then acc
  else if ¬ (s.isAlive e.1 = true) then acc
  else if e.2.type = "protect" then
    match truthyAliveTarget s e.2.target with
    | some t => if alookup t acc = none then acc ++ [(t, e.1)] else acc
    | none => acc
  else acc

/-- The insertion-ordered dict `protected` (target → first protector) built by
the protection loop of `_resolve_night`. -/
def protectedOf (s : GameState) : List (String × String) :=
  s.night_actions_submitted.foldl (protectStep s) []

/-- The list `kills_attempted` of `_resolve_night` (killer, target). -/
def killsAttemptedOf (s : GameState) : List (String × String) :=
  s.night_actions_submitted.filterMap (fun e =>
    if e.1 ∈ roleblockedOf s then none
    else if ¬ (s.isAlive e.1 = true) then none
    else if e.2.type = "kill" then
      match truthyAliveTarget s e.2.target with
      | some t => some (e.1, t)
      | none => none
    else none)

/-- The set `successful_kills` of `_resolve_night`: attempted-kill targets with
no registered protector.  (Python iterates this `set` in unspecified order; the
deduplicated insertion-order list is used, and every property proved below is
order-independent.) -/
def successfulKillsOf (s : GameState) : List String :=
  (((killsAttemptedOf s).filter
      (fun kt => alookup kt.2 (protectedOf s) = none)).map (fun kt => kt.2)).dedup

/-- The death loop of `_resolve_night`: `for victim in successful_kills: if
is_alive(victim): kill_player(victim, "killed during night"); deaths.append`.
Returns the final state and the `deaths` list. -/
def applyKills (s : GameState) : List String → GameState × List String
  | [] => (s, [])
  | v :: rest =>
      if s.isAlive v = true then
        let t := s.killPlayer v "killed during night"
        let tr := applyKills t rest
        (tr.1, v :: tr.2)
      else applyKills s rest

/-- One iteration of the roleblock/blackmail detection loop of
`_resolve_night` (log effects only; the sets are `roleblockedOf` /
`blackmailedOf`). -/
def rbDetectStep (s0 t : GameState) (e : String × NightAction) : GameState :=
  if s0.isAlive e.1 = true then
    if e.2.type = "roleblock" then
      match truthyAliveTarget s0 e.2.target with
      | some tgt => t.logHidden e.1 ("Roleblocked " ++ tgt ++ " for the night.")
      | none => t
    else if e.2.type = "blackmail" then
      match truthyAliveTarget s0 e.2.target with
      | some tgt => t.logHidden e.1 ("Blackmailed " ++ tgt ++ " for the day.")
      | none => t
    else t
  else t

/-- `p.is_roleblocked = True` for one blocked player. -/
def rbFlagStep (t : GameState) (b : String) : GameState :=
  { t with players := updatePlayer (fun p => { p with is_roleblocked := true }) b t.players }

/-- `p.can_speak_today = False` for one blackmailed player. -/
def bmFlagStep (t : GameState) (b : String) : GameState :=
  { t with players := updatePlayer (fun p => { p with can_speak_today := false }) b t.players }

/-- Apply one registered protection: set the target's `protected_by` and log. -/
def protApplyStep (t : GameState) (pr : String × String) : GameState :=
  ({ t with players :=
       updatePlayer (fun p => { p with protected_by := some pr.2 }) pr.1 t.players
   } : GameState).logHidden pr.2 ("Protected " ++ pr.1 ++ " this night.")

/-- The `Attempting kill on ...` log of one attempted kill. -/
def killAttemptLogStep (t : GameState) (kt : String × String) : GameState :=
  t.logHidden kt.1 ("Attempting kill on " ++ kt.2 ++ ".")

/-- The success/failure logging for one attempted kill against the
`protected` dict. -/
def killResolveLogStep (prot : List (String × String)) (t : GameState)
    (kt : String × String) : GameState :=
  match alookup kt.2 prot with
  | none => t.logHidden kt.1 ("Kill on " ++ kt.2 ++ " succeeded.")
  | some doc =>
      (t.logHidden kt.1
        ("Kill on " ++ kt.2 ++ " failed (protected by " ++ doc ++ ").")).logHidden
        doc ("You successfully protected " ++ kt.2 ++ " from a kill.")

/-- Everything `_resolve_night` does before the death loop: the opening
message, clearing `night_action_results`, the roleblock/blackmail detection
loop and its logs, setting the `is_roleblocked` / `can_speak_today` flags, the
protection loop (flags, dict and logs), the kill-attempt logs, and the
kill success/failure logs. -/
def nightPreKill (s0 : GameState) : GameState :=
  let s := s0.logMessage "system" "Night ends. Resolving all night actions..." none "public"
  let s := { s with night_action_results := [] }
  let s := s0.night_actions_submitted.foldl (rbDetectStep s0) s
  let s := (roleblockedOf s0).foldl rbFlagStep s
  let s := (blackmailedOf s0).foldl bmFlagStep s
  let s := (protectedOf s0).foldl protApplyStep s
  let s := (killsAttemptedOf s0).foldl killAttemptLogStep s
  (killsAttemptedOf s0).foldl (killResolveLogStep (protectedOf s0)) s

/-- One iteration of the investigation loop of `_resolve_night`. -/
def investStep (rb : List String) (t : GameState) (e : String × NightAction) : GameState :=
  if e.1 ∈ rb then t
  else if ¬ (t.isAlive e.1 = true) then t
  else if e.2.type = "investigate" then
    let t := t.logHidden e.1
      ("Investigation result on " ++ optStr e.2.target ++ ": " ++ optStr e.2.result)
    { t with night_action_results := aset e.1 e.2 t.night_action_results }
  else t

/-- Everything `_resolve_night` does after the death loop: the investigation
loop (non-blocked, currently-alive actors; results logged and recorded into
`night_action_results`) and the combined dawn announcement. -/
def nightPostKill (s0 : GameState) (t0 : GameState) (deaths : List String) : GameState :=
  let s := s0.night_actions_submitted.foldl (investStep (roleblockedOf s0)) t0
  if deaths ≠ [] then
    s.logMessage "system"
      ("The sun rises. The following were found dead: "
        ++ joinComma (sortStrings deaths) ++ ".") none "public"
  else
    s.logMessage "system" "The sun rises. Miraculously, nobody died last night!" none "public"

/-- `MafiaEnvironment._resolve_night` (it reads and writes only `self.state`). -/
def resolveNight (s0 : GameState) : GameState :=
  let td := applyKills (nightPreKill s0) (successfulKillsOf s0)
  nightPostKill s0 td.1 td.2

@[simp] theorem logMessage_players (s : GameState) (a c : String)
    (rec : Option (List String)) (t : String) : (s.logMessage a c rec t).players = s.players := rfl

@[simp] theorem logMessage_alive_players (s : GameState) (a c : String)
    (rec : Option (List String)) (t : String) :
    (s.logMessage a c rec t).alive_players = s.alive_players := rfl

@[simp] theorem logMessage_dead_players (s : GameState) (a c : String)
    (rec : Option (List String)) (t : String) :
    (s.logMessage a c rec t).dead_players = s.dead_players := rfl

@[simp] theorem logMessage_game_over (s : GameState) (a c : String)
    (rec : Option (List String)) (t : String) :
    (s.logMessage a c rec t).game_over = s.game_over := rfl

@[simp] theorem logMessage_winner (s : GameState) (a c : String)
    (rec : Option (List String)) (t : String) : (s.logMessage a c rec t).winner = s.winner := rfl

@[simp] theorem logMessage_phase (s : GameState) (a c : String)
    (rec : Option (List String)) (t : String) : (s.logMessage a c rec t).phase = s.phase := rfl

@[simp] theorem logMessage_final_player_roles (s : GameState) (a c : String)
    (rec : Option (List String)) (t : String) :
    (s.logMessage a c rec t).final_player_roles = s.final_player_roles := rfl

@[simp] theorem logMessage_player_on_trial (s : GameState) (a c : String)
    (rec : Option (List String)) (t : String) :
    (s.logMessage a c rec t).player_on_trial = s.player_on_trial := rfl

@[simp] theorem logMessage_hidden_log (s : GameState) (a c : String)
    (rec : Option (List String)) (t : String) :
    (s.logMessage a c rec t).hidden_log = s.hidden_log := rfl

@[simp] theorem logHidden_players (s : GameState) (a c : String) :
    (s.logHidden a c).players = s.players := rfl

@[simp] theorem logHidden_alive_players (s : GameState) (a c : String) :
    (s.logHidden a c).alive_players = s.alive_players := rfl

@[simp] theorem logHidden_dead_players (s : GameState) (a c : String) :
    (s.logHidden a c).dead_players = s.dead_players := rfl

@[simp] theorem logHidden_game_over (s : GameState) (a c : String) :
    (s.logHidden a c).game_over = s.game_over := rfl

@[simp] theorem logHidden_winner (s : GameState) (a c : String) :
    (s.logHidden a c).winner = s.winner := rfl

@[simp] theorem logHidden_phase (s : GameState) (a c : String) :
    (s.logHidden a c).phase = s.phase := rfl

@[simp] theorem logHidden_final_player_roles (s : GameState) (a c : String) :
    (s.logHidden a c).final_player_roles = s.final_player_roles := rfl

@[simp] theorem logHidden_player_on_trial (s : GameState) (a c : String) :
    (s.logHidden a c).player_on_trial = s.player_on_trial := rfl

@[simp] theorem checkGameEnd_fst_players (s : GameState) :
    (s.checkGameEnd).1.players = s.players := by
  unfold checkGameEnd
  split
  · rfl
  · dsimp only
    split <;> simp

@[simp] theorem checkGameEnd_fst_alive_players (s : GameState) :
    (s.checkGameEnd).1.alive_players = s.alive_players := by
  unfold checkGameEnd
  split
  · rfl
  · dsimp only
    split <;> simp

@[simp] theorem checkGameEnd_fst_dead_players (s : GameState) :
    (s.checkGameEnd).1.dead_players = s.dead_players := by
  unfold checkGameEnd
  split
  · rfl
  · dsimp only
    split <;> simp

theorem promoteFirstGoon_map_name (alive : List String) :
    ∀ (l l' : List PlayerRec) (n : String), promoteFirstGoon alive l = some (l', n) →
      l'.map (fun q => q.name) = l.map (fun q => q.name) := by
  intro l
  induction l with
  | nil => intro l' n h; simp [promoteFirstGoon] at h
  | cons p r ih =>
      intro l' n h
      unfold promoteFirstGoon at h
      split at h
      · cases h
        simp
      · cases hr : promoteFirstGoon alive r with
        | none => rw [hr] at h; cases h
        | some pr =>
            rw [hr] at h
            cases h
            simp [ih pr.1 pr.2 hr]

@[simp] theorem promoteGoonToGf_alive_players (s : GameState) (d : String) :
    (s.promoteGoonToGf d).alive_players = s.alive_players := by
  unfold promoteGoonToGf
  split <;> simp

@[simp] theorem promoteGoonToGf_dead_players (s : GameState) (d : String) :
    (s.promoteGoonToGf d).dead_players = s.dead_players := by
  unfold promoteGoonToGf
  split <;> simp

theorem promoteGoonToGf_players_map_name (s : GameState) (d : String) :
    (s.promoteGoonToGf d).players.map (fun q => q.name)
      = s.players.map (fun q => q.name) := by
  unfold promoteGoonToGf
  cases h : promoteFirstGoon s.alive_players s.players with
  | none => simp
  | some pr => simp [promoteFirstGoon_map_name s.alive_players s.players pr.1 pr.2 h]

theorem updatePlayer_map_name (f : PlayerRec → PlayerRec)
    (hf : ∀ p, (f p).name = p.name) (n : String) :
    ∀ l : List PlayerRec, (updatePlayer f n l).map (fun q => q.name)
      = l.map (fun q => q.name) := by
  intro l
  induction l with
  | nil => rfl
  | cons p r ih =>
      unfold updatePlayer
      split <;> simp [hf, ih]

theorem killPlayer_fields (s : GameState) (n r : String) (hn : n ∈ s.alive_players)
    (p : PlayerRec) (hp : s.getPlayer n = some p) :
    (s.killPlayer n r).alive_players = s.alive_players.erase n ∧
    (s.killPlayer n r).dead_players = setAdd s.dead_players n ∧
    (s.killPlayer n r).players.map (fun q => q.name)
      = s.players.map (fun q => q.name) := by
  unfold killPlayer
  rw [if_neg (by simp [hn]), hp]
  refine ⟨?_, ?_, ?_⟩
  all_goals
    split
    next heq => exact Option.noConfusion heq
    next player heq =>
      cases heq
      split <;>
        simp [promoteGoonToGf_players_map_name,
              updatePlayer_map_name (fun q => { q with alive := false }) (fun _ => rfl) n]

theorem killPlayer_noop (s : GameState) (n r : String) (hn : n ∉ s.alive_players) :
    s.killPlayer n r = s := by
  unfold killPlayer
  rw [if_pos hn]

end GameState

-- -------------------------------------------------------------------
-- `parse_speak_tags` (`src/llm_games/mafia/environment.py`): embedded
-- regex matching for the four patterns
-- `<\s*TAG\s*>(.*?)<\s*/\s*TAG\s*>` with IGNORECASE and DOTALL —
-- leftmost scanning, lazy bodies, non-overlapping matches.
-- -------------------------------------------------------------------

/-- Case-insensitive literal match of `word` at the head of `cs`,
returning the remainder. -/
def matchChars : List Char → List Char → Option (List Char)
  | [], cs => some cs
  | _ :: _, [] => none
  | w :: ws, c :: cs => if w.toLower = c.toLower then matchChars ws cs else none

/-- Match `<\s*TAG\s*>` at the head of `cs`. -/
def matchOpenTag (tag : List Char) (cs : List Char) : Option (List Char) :=
  match cs with
  | '<' :: rest =>
      match matchChars tag (rest.dropWhile Char.isWhitespace) with
      | some rest2 =>
          match rest2.dropWhile Char.isWhitespace with
          | '>' :: rest3 => some rest3
          | _ => none
      | none => none
  | _ => none

/-- Match `<\s*/\s*TAG\s*>` at the head of `cs`. -/
def matchCloseTag (tag : List Char) (cs : List Char) : Option (List Char) :=
  match cs with
  | '<' :: rest =>
      match rest.dropWhile Char.isWhitespace with
      | '/' :: rest2 =>
          match matchChars tag (rest2.dropWhile Char.isWhitespace) with
          | some rest3 =>
              match rest3.dropWhile Char.isWhitespace with
              | '>' :: rest4 => some rest4
              | _ => none
          | none => none
      | _ => none
  | _ => none

/-- The lazy capture `(.*?)`: the shortest body up to the first closing tag,
with the remainder after the closing tag. -/
def findBody (tag : List Char) : List Char → Option (List Char × List Char)
  | [] =>
      match matchCloseTag tag [] with
      | some rest => some ([], rest)
      | none => none
  | c :: cs2 =>
      match matchCloseTag tag (c :: cs2) with
      | some rest => some ([], rest)
      | none =>
          match findBody tag cs2 with
          | some (body, rest) => some (c :: body, rest)
          | none => none

/-- `re.findall` for one tag pattern: scan left to right; at each position try
a full match (opening tag, lazy body, closing tag); on success record the body
and continue after the match, otherwise advance one character.  `fuel` is the
input length (each step consumes at least one character). -/
def findAllTags (tag : List Char) : Nat → List Char → List (List Char)
  | 0, _ => []
  | fuel + 1, cs =>
      match matchOpenTag tag cs with
      | some rest =>
          match findBody tag rest with
          | some (body, rest2) => body :: findAllTags tag fuel rest2
          | none =>
              match cs with
              | [] => []
              | _ :: cs2 => findAllTags tag fuel cs2
      | none =>
          match cs with
          | [] => []
          | _ :: cs2 => findAllTags tag fuel cs2

/-- `re.findall(pattern_for(tag), content, IGNORECASE|DOTALL)`. -/
def reFindAll (tag : String) (content : String) : List String :=
  (findAllTags tag.toList (content.toList.length + 1) content.toList).map
    (fun l => String.mk l)

/-- Python `str.strip()` (leading and trailing whitespace removed). -/
def pyStrip (s : String) : String :=
  String.mk (((s.toList.dropWhile Char.isWhitespace).reverse.dropWhile
    Char.isWhitespace).reverse)

/-- Python `str.split(sep)` for a one-character separator, at char level. -/
def splitCharsOn (sep : Char) : List Char → List (List Char)
  | [] => [[]]
  | c :: r =>
      match splitCharsOn sep r with
      | [] => [[]]
      | g :: gs => if c = sep then [] :: g :: gs else (c :: g) :: gs

/-- Python `s.split(",")`. -/
def pySplitComma (s : String) : List String :=
  (splitCharsOn ',' s.toList).map (fun l => String.mk l)

/-- `[m.strip() for m in matches if m and m.strip()]`. -/
def cleanMatches (ms : List String) : List String :=
  (ms.map (fun m => pyStrip m)).filter (fun m => m ≠ "")

/-- The dict returned by `parse_speak_tags`; a tag key is present in the
Python dict exactly when its list here is non-empty. -/
structure ParsedTags where
  accuse : List String
  question : List String
  claim : List String
  predict : List String
deriving DecidableEq, Repr

/-- `parse_speak_tags(content)`. -/
def parseSpeakTags (content : String) : ParsedTags :=
  { accuse := cleanMatches (reFindAll "accuse" content)
    question := cleanMatches (reFindAll "question" content)
    claim := cleanMatches (reFindAll "claim" content)
    predict := cleanMatches (reFindAll "predict" content) }

/-- Python truthiness of an optional string. -/
def optTruthy (o : Option String) : Bool :=
  match o with
  | some t => decide (t ≠ "")
  | none => false

/-- Python `a or b` on two optional strings. -/
def orTruthy (a b : Option String) : Option String :=
  if optTruthy a = true then a else b

-- -------------------------------------------------------------------
-- Player day/night methods from `src/llm_games/mafia/player.py` and the
-- role `night_action` methods from `src/mafia/mechanics/roles.py`.
-- A Python `Player` object is the list entry of `GameState.players` with
-- the same name, so each method is embedded as a `GameState` update keyed
-- by the player's name.
-- -------------------------------------------------------------------

/-- Python code that appends a bare `str` to `game_state.messages` (a list
typed as `GameMessage` entries): kept distinguishable via the out-of-band
`msg_type` value `raw_str`. -/
def appendRawStr (s : GameState) (txt : String) : GameState :=
  { s with messages := s.messages ++
      [{ msg_type := "raw_str", sender := "", content := txt,
         recipients := none, phase := s.phase, day := s.day_count }] }

/-- Python `repr` of a list of strings (used in f-strings; content is only
ever logged). -/
def renderStrList (l : List String) : String :=
  "[" ++ GameState.joinComma (l.map (fun x => "\x27" ++ x ++ "\x27")) ++ "]"

/-- Python `repr` of a night-action dict (used in f-strings; content is only
ever logged). -/
def renderNightAction (a : NightAction) : String :=
  "\x7btype: " ++ a.type ++ ", target: " ++ GameState.optStr a.target ++
    ", result: " ++ GameState.optStr a.result ++ "\x7d"

/-- `Player.accuse(target, game_state)`. -/
def playerAccuse (s : GameState) (selfName target : String) : GameState × Bool :=
  match s.getPlayer selfName with
  | none => (s, false)
  | some player =>
      if ¬ (player.canSpeak = true) then
        (s.logHidden selfName ("Attempted to accuse " ++ target ++ " but cannot speak."), false)
      else
        match s.getPlayer target with
        | none =>
            (s.logHidden selfName
              ("Attempted to accuse " ++ target ++ " but they are dead or invalid."), false)
        | some tp =>
            if ¬ (tp.alive = true) then
              (s.logHidden selfName
                ("Attempted to accuse " ++ target ++ " but they are dead or invalid."), false)
            else
              let s :=
                if player.has_accused_today = true then
                  s.logHidden selfName
                    ("Re‑accusing: updating previous accusation to " ++ target ++ ".")
                else
                  { s with players := (GameState.updatePlayer
                      (fun p => { p with has_accused_today := true }) selfName s.players) }
              ({ s with messages := s.messages ++
                  [{ msg_type := "public", sender := selfName,
                     content := selfName ++ " accuses " ++ target ++ "!",
                     recipients := none, phase := s.phase, day := s.day_count }] }, true)

/-- `Player.predict_role(target, predicted_role_name, game_state)`. -/
def playerPredictRole (s : GameState) (selfName target predicted : String) :
    GameState × Bool :=
  match s.getPlayer selfName with
  | none => (s, false)
  | some player =>
      if ¬ (player.alive = true) then (s, false)
      else
        match s.getPlayer target with
        | none => (s, false)
        | some _ =>
            let s := { s with players := (GameState.updatePlayer
                (fun q => { q with predictions := aset target predicted q.predictions })
                selfName s.players) }
            (s.logHidden selfName ("Predicted " ++ target ++ " as " ++ predicted), true)

/-- `Player.question(target, question_text, game_state)`. -/
def playerQuestion (s : GameState) (selfName target qtext : String) : GameState × Bool :=
  match s.getPlayer selfName with
  | none => (s, false)
  | some player =>
      if ¬ (player.canSpeak = true) then
        (s.logHidden selfName ("Attempted to question " ++ target ++ " but cannot speak."), false)
      else
        match s.getPlayer target with
        | none =>
            (s.logHidden selfName
              ("Attempted to question " ++ target ++ " but they are dead or invalid."), false)
        | some tp =>
            if ¬ (tp.alive = true) then
              (s.logHidden selfName
                ("Attempted to question " ++ target ++ " but they are dead or invalid."), false)
            else
              let s := { s with players := (GameState.updatePlayer
                  (fun q => { q with questions_asked_today :=
                      (aset target ((alookup target q.questions_asked_today).getD 0 + 1)
                        q.questions_asked_today) }) selfName s.players) }
              let s := s.logHidden selfName ("Asked " ++ target ++ ": " ++ qtext)
              (appendRawStr s (selfName ++ " asks " ++ target ++ ": \"" ++ qtext ++ "\""), true)

/-- `Player.whisper(target, whisper_text, game_state)`. -/
def playerWhisper (s : GameState) (selfName target wtext : String) : GameState × Bool :=
  match s.getPlayer selfName with
  | none => (s, false)
  | some player =>
      if ¬ (player.alive = true) then (s, false)
      else
        match s.getPlayer target with
        | none =>
            (s.logHidden selfName
              ("Attempted to whisper " ++ target ++ " but they are dead or invalid."), false)
        | some tp =>
            if ¬ (tp.alive = true) then
              (s.logHidden selfName
                ("Attempted to whisper " ++ target ++ " but they are dead or invalid."), false)
            else
              let s := { s with players := (GameState.updatePlayer
                  (fun q => { q with whispers_sent_today :=
                      (aset target wtext q.whispers_sent_today) }) selfName s.players) }
              let s := s.logHidden selfName ("Whispered to " ++ target ++ ": " ++ wtext)
              (appendRawStr s ("[WHISPER] " ++ selfName ++ " to " ++ target), true)

/-- `Player.vote_for(target, game_state)` (the `target` slot can carry `None`
when called from the voting phase). -/
def playerVoteFor (s : GameState) (selfName : String) (target : Option String) :
    GameState × Bool :=
  match s.getPlayer selfName with
  | none => (s, false)
  | some player =>
      if ¬ (player.alive = true) then (s, false)
      else
        let tp := match target with
          | some t => s.getPlayer t
          | none => none
        match tp with
        | none =>
            (s.logHidden selfName ("Attempted to vote for " ++ GameState.optStr target ++
              " but they are dead or invalid."), false)
        | some t =>
            if ¬ (t.alive = true) then
              (s.logHidden selfName ("Attempted to vote for " ++ GameState.optStr target ++
                " but they are dead or invalid."), false)
            else
              let oldVote := player.vote
              let s := { s with players := (GameState.updatePlayer
                  (fun q => { q with vote := target }) selfName s.players) }
              if optTruthy oldVote = true ∧ oldVote ≠ target then
                let s := s.logHidden selfName
                  ("Changed vote from " ++ GameState.optStr oldVote ++ " to " ++
                    GameState.optStr target)
                let s := appendRawStr s
                  (selfName ++ " changed vote to " ++ GameState.optStr target ++ ".")
                (s.updateVoteCounts selfName oldVote (target.getD ""), true)
              else if ¬ (optTruthy oldVote = true) then
                let s := s.logHidden selfName ("Voted for " ++ GameState.optStr target)
                let s := appendRawStr s
                  (selfName ++ " voted for " ++ GameState.optStr target ++ ".")
                (s.updateVoteCounts selfName oldVote (target.getD ""), true)
              else (s, true)

/-- `Cop.night_action`. -/
def copNightAction (p : PlayerRec) (s : GameState) (tn : Option String) :
    GameState × Option NightAction :=
  if tn = some p.name then (s.logHidden p.name "You cannot investigate yourself.", none)
  else
    let tp := if optTruthy tn = true then s.getPlayer (tn.getD "") else none
    match tp with
    | some t =>
        if t.alive = true then
          let rf := if t.role = RoleKind.godfather ∧ s.game_config.godfather_detectable = false
                    then Faction.town else t.role.faction
          let info := "Investigated " ++ t.name ++ ": Result " ++ rf.value
          let s := s.logHidden p.name ("🔎 " ++ info)
          let s := { s with players := (GameState.updatePlayer (fun q =>
              { q with memory := q.memory ++
                  [MemoryEntry.investigationResult s.day_count t.name rf.value] })
              p.name s.players) }
          (s, some { type := "investigate", target := some t.name, result := some rf.value })
        else if optTruthy tn = true then
          (s.logHidden p.name ("🔎 Tried to investigate " ++ tn.getD "" ++
            ", but they were not found or dead."), none)
        else (s, none)
    | none =>
        if optTruthy tn = true then
          (s.logHidden p.name ("🔎 Tried to investigate " ++ tn.getD "" ++
            ", but they were not found or dead."), none)
        else (s, none)

/-- `Doctor.night_action`. -/
def doctorNightAction (p : PlayerRec) (s : GameState) (tn : Option String) :
    GameState × Option NightAction :=
  if tn = some p.name ∧ s.game_config.doctor_can_self_heal = false then
    (s.logHidden p.name "You cannot protect yourself tonight.", none)
  else
    let tp := if optTruthy tn = true then s.getPlayer (tn.getD "") else none
    match tp with
    | some t =>
        if t.alive = true then
          (s.logHidden p.name ("🩸 Protected " ++ t.name),
           some { type := "protect", target := some t.name, result := none })
        else if optTruthy tn = true then
          (s.logHidden p.name ("🩸 Tried to protect " ++ tn.getD "" ++
            ", but they were not found or dead."), none)
        else (s, none)
    | none =>
        if optTruthy tn = true then
          (s.logHidden p.name ("🩸 Tried to protect " ++ tn.getD "" ++
            ", but they were not found or dead."), none)
        else (s, none)

/-- `Godfather.night_action`. -/
def godfatherNightAction (p : PlayerRec) (s : GameState) (tn : Option String) :
    GameState × Option NightAction :=
  if tn = some p.name then (s.logHidden p.name "You cannot target yourself.", none)
  else
    let tp := if optTruthy tn = true then s.getPlayer (tn.getD "") else none
    match tp with
    | some t =>
        if t.faction = Faction.mafia then
          (s.logHidden p.name "You cannot order a kill on a fellow Mafia member.", none)
        else if t.alive = true then
          (s.logHidden p.name ("🔪 Ordered kill on " ++ t.name),
           some { type := "kill", target := some t.name, result := none })
        else if optTruthy tn = true then
          (s.logHidden p.name ("🔪 Tried to order kill on " ++ tn.getD "" ++
            ", but they were not found or dead."), none)
        else (s, none)
    | none =>
        if optTruthy tn = true then
          (s.logHidden p.name ("🔪 Tried to order kill on " ++ tn.getD "" ++
            ", but they were not found or dead."), none)
        else (s, none)

/-- `RoleBlocker.night_action`. -/
def roleblockerNightAction (p : PlayerRec) (s : GameState) (tn : Option String) :
    GameState × Option NightAction :=
  if tn = some p.name then (s.logHidden p.name "You cannot roleblock yourself.", none)
  else
    let tp := if optTruthy tn = true then s.getPlayer (tn.getD "") else none
    match tp with
    | some t =>
        if t.alive = true then
          (s.logHidden p.name ("Blocked " ++ t.name ++ "\x27s action"),
           some { type := "roleblock", target := some t.name, result := none })
        else if optTruthy tn = true then
          (s.logHidden p.name ("Tried to block " ++ tn.getD "" ++
            ", but they were not found or dead."), none)
        else (s, none)
    | none =>
        if optTruthy tn = true then
          (s.logHidden p.name ("Tried to block " ++ tn.getD "" ++
            ", but they were not found or dead."), none)
        else (s, none)

/-- `Consigliere.night_action`. -/
def consigliereNightAction (p : PlayerRec) (s : GameState) (tn : Option String) :
    GameState × Option NightAction :=
  let tp := if optTruthy tn = true then s.getPlayer (tn.getD "") else none
  match tp with
  | some t =>
      if t.alive = true then
        let s := s.logHidden p.name ("Investigated " ++ t.name ++ ": Role = " ++ t.role.name)
        let s := { s with players := (GameState.updatePlayer (fun q =>
            { q with memory := q.memory ++
                [MemoryEntry.rolePeek s.day_count t.name t.role.name] }) p.name s.players) }
        (s, some { type := "consigliere_investigate", target := some t.name,
                   result := some t.role.name })
      else if optTruthy tn = true then
        (s.logHidden p.name ("Tried to investigate " ++ tn.getD "" ++
          ", but they were not found or dead."), none)
      else (s, none)
  | none =>
      if optTruthy tn = true then
        (s.logHidden p.name ("Tried to investigate " ++ tn.getD "" ++
          ", but they were not found or dead."), none)
      else (s, none)

/-- Dispatch `player.role.night_action(player, game_state, target)`; the base
`Role.night_action` (Villager, Goon) returns `None`. -/
def roleNightAction (p : PlayerRec) (s : GameState) (tn : Option String) :
    GameState × Option NightAction :=
  match p.role with
  | .cop => copNightAction p s tn
  | .doctor => doctorNightAction p s tn
  | .godfather => godfatherNightAction p s tn
  | .roleBlocker => roleblockerNightAction p s tn
  | .consigliere => consigliereNightAction p s tn
  | _ => (s, none)

/-- `Player.perform_night_action(game_state)` (reads the live player record,
including its stored `night_target`). -/
def performNightAction (s : GameState) (selfName : String) :
    GameState × Option NightAction :=
  match s.getPlayer selfName with
  | none => (s, none)
  | some p =>
      if ¬ (p.canActAtNight = true) ∨ p.is_roleblocked = true then
        if p.is_roleblocked = true then
          (s.logHidden selfName "Tried to act but was roleblocked.", none)
        else (s, none)
      else roleNightAction p s p.night_target

/-- `MafiaEnvironment._validate_night_action(player, action_dict)`. -/
def validateNightAction (s : GameState) (player : PlayerRec)
    (act : Option NightAction) : GameState × Option NightAction :=
  match act with
  | none => (s, none)
  | some a =>
      if ¬ (optTruthy a.target = true) then
        (s.logHidden player.name "No target specified for night action.", none)
      else
        let t := a.target.getD ""
        if a.type = "investigate" ∧ t = player.name then
          (s.logHidden player.name "Cop tried to investigate themselves; invalid.", none)
        else if a.type = "kill" ∧ player.role = RoleKind.godfather then
          match s.getPlayer t with
          | some tp =>
              if tp.faction = Faction.mafia ∨ tp.name = player.name then
                (s.logHidden player.name
                  "Godfather tried to kill themselves or a fellow Mafia, invalid action.", none)
              else (s, some a)
          | none => (s, some a)
        else if a.type = "roleblock" ∧ player.role = RoleKind.roleBlocker then
          if t = player.name then
            (s.logHidden player.name "RoleBlocker tried to block themselves, invalid.", none)
          else (s, some a)
        else (s, some a)

/-- `GameState.register_night_action(actor_name, action)`
(`src/mafia/game_state.py`). -/
def registerNightAction (s : GameState) (actorName : String) (a : NightAction) : GameState :=
  if ¬ (s.isAlive actorName = true) then s
  else
    let s := { s with night_actions_submitted := aset actorName a s.night_actions_submitted }
    s.logHidden actorName ("Submitted night action: " ++ renderNightAction a)

/-- `GameState.reset_night_phase_state` (`src/mafia/game_state.py`). -/
def GameState.resetNightPhaseState (s : GameState) : GameState :=
  let s := { s with night_actions_submitted := [], night_action_results := [],
                    turn_number_in_phase := 0, current_player_turn := none }
  { s with players := (s.alive_players.foldl
      (fun ps n => GameState.updatePlayer PlayerRec.resetNightState n ps) s.players) }

/-- `GameState.reset_day_phase_state` (`src/mafia/game_state.py`). -/
def GameState.resetDayPhaseState (s : GameState) : GameState :=
  let s := { s with votes_for_accusation := [], accusation_counts := [],
                    player_on_trial := none, votes_for_lynch := [],
                    turn_number_in_phase := 0, current_player_turn := none }
  { s with players := (s.alive_players.foldl
      (fun ps n => GameState.updatePlayer PlayerRec.resetDayState n ps) s.players) }

-- -------------------------------------------------------------------
-- `MafiaEnvironment` (`src/llm_games/mafia/environment.py`): the wrapper
-- object holding the game state plus the day-phase bookkeeping attributes
-- (`_speaker_queue`, `_question_queue`, `_turns_taken_this_round`,
-- `_consecutive_passes`, `_question_rounds_taken`); the Python leading
-- underscores are dropped from the field names.  Deques are lists with
-- `popleft` = head, `append` = snoc, `appendleft` = cons; the
-- `_turns_taken_this_round` set is an insertion-ordered list with `setAdd`.
-- -------------------------------------------------------------------

structure MafiaEnv where
  config : Config
  state : GameState
  lynch_defense_enabled : Bool
  cop_speaks_first : Bool
  speaker_queue : List String
  question_queue : List (String × String)
  turns_taken_this_round : List String
  consecutive_passes : Nat
  question_rounds_taken : List (String × Nat)
deriving DecidableEq, Repr

/-- `MafiaEnvironment.__init__(players, config)`. -/
def mkEnv (players : List PlayerRec) (cfg : Config) : MafiaEnv :=
  { config := cfg
    state := GameState.initState players cfg
    lynch_defense_enabled := cfg.lynch_defense_enabled
    cop_speaks_first := cfg.cop_speaks_first
    speaker_queue := []
    question_queue := []
    turns_taken_this_round := []
    consecutive_passes := 0
    question_rounds_taken := [] }

namespace MafiaEnv

/-- `MafiaEnvironment._transition_to_final_vote`. -/
def transitionToFinalVote (env : MafiaEnv) : MafiaEnv :=
  let st := { env.state with phase := GamePhase.finalVote, current_player_turn := none,
                             votes_for_lynch := [] }
  { env with state := (st.logMessage "system"
      ("Final voting begins for " ++ GameState.optStr st.player_on_trial ++
        ". Vote GUILTY or INNOCENT.") none "public") }

/-- `MafiaEnvironment._transition_to_night`. -/
def transitionToNight (env : MafiaEnv) : MafiaEnv :=
  let st := env.state.logHidden "system" "Transitioning to Night phase."
  let st :=
    if optTruthy st.player_on_trial = true ∧ st.phase ≠ GamePhase.night then
      st.resolveLynch
    else st
  let ce := st.checkGameEnd
  if ce.2 = true then { env with state := ce.1 }
  else
    let st := { ce.1 with phase := GamePhase.night }
    let st := st.resetNightPhaseState
    let st := { st with current_player_turn := none }
    { env with state := (st.logMessage "system"
        "Night falls. Mafia members, choose your targets..." none "public") }

/-- `MafiaEnvironment._transition_to_voting`. -/
def transitionToVoting (env : MafiaEnv) : MafiaEnv :=
  if ¬ (optTruthy env.state.player_on_trial = true) then
    let st := env.state.logMessage "system" "No one was put on trial today." none "public"
    transitionToNight { env with state := st }
  else
    let st := env.state.logMessage "system"
      (GameState.optStr env.state.player_on_trial ++ " is on trial!") none "public"
    let st := { st with votes_for_lynch := [] }
    if env.lynch_defense_enabled = true then
      let st := { st with phase := GamePhase.defense,
                          current_player_turn := st.player_on_trial }
      { env with state := (st.logMessage "system"
          (GameState.optStr st.player_on_trial ++ ", you may speak in your defense.")
          none "public") }
    else
      transitionToFinalVote { env with state := st }

/-- `MafiaEnvironment.advance_turn`. -/
def advanceTurn (env : MafiaEnv) : MafiaEnv :=
  if env.state.phase ≠ GamePhase.dayDiscussion then
    { env with state := { env.state with current_player_turn := none } }
  else
    match env.question_queue with
    | (qer, qee) :: rest =>
        { env with question_queue := rest,
                   state := { env.state with current_player_turn := some qee,
                                             turn_context := some qer } }
    | [] =>
        match env.speaker_queue with
        | [] => transitionToVoting env
        | n :: rest =>
            if env.state.alive_players.length ≤ env.consecutive_passes then
              transitionToVoting env
            else
              { env with speaker_queue := rest,
                         state := { env.state with
                           current_player_turn := some n,
                           turn_number_in_phase := env.state.turn_number_in_phase + 1,
                           turn_context := none } }

/-- `MafiaEnvironment._start_new_discussion_round`. -/
def startNewDiscussionRound (env : MafiaEnv) : MafiaEnv :=
  let env := { env with speaker_queue := [], question_queue := [],
                        turns_taken_this_round := [], consecutive_passes := 0,
                        state := { env.state with turn_context := none,
                                                  turn_number_in_phase := 0 } }
  let aliveNames := GameState.sortStrings env.state.alive_players
  let pr :=
    if env.cop_speaks_first = true then
      match aliveNames.find? (fun n =>
        match env.state.getPlayer n with
        | some pl => pl.role = RoleKind.cop
        | none => false) with
      | some n => (n :: aliveNames.erase n, some n)
      | none => (aliveNames, none)
    else (aliveNames, none)
  let st := match pr.2 with
    | some n => env.state.logHidden "system" ("Cop (" ++ n ++ ") will speak first today.")
    | none => env.state
  advanceTurn { env with state := st, speaker_queue := pr.1 }

/-- `MafiaEnvironment._transition_to_day`. -/
def transitionToDay (env : MafiaEnv) : MafiaEnv :=
  let st := env.state.logHidden "system" "Transitioning to Day phase."
  let st := { st with players := st.players.map PlayerRec.resetNightState }
  let st := { st with phase := GamePhase.dayDiscussion, day_count := st.day_count + 1 }
  let st := st.resetDayPhaseState
  let env := startNewDiscussionRound { env with state := st }
  { env with state := (env.state.logMessage "system"
      ("Day " ++ toString env.state.day_count ++ " begins. Discuss and vote!")
      none "public") }

/-- The per-player count built by `_check_discussion_end`: hidden-log entries
recorded during `DAY_DISCUSSION` with this actor. -/
def discussionTurnCount (s : GameState) (p : String) : Nat :=
  (s.hidden_log.filter (fun e => e.phase = "DAY_DISCUSSION" ∧ e.actor = p)).length

/-- `MafiaEnvironment._check_discussion_end` (updated environment and the
returned boolean). -/
def checkDiscussionEnd (env : MafiaEnv) : MafiaEnv × Bool :=
  let aliveCount := env.state.alive_players.length
  let minTurns := if env.state.day_count = 0 then 1 else env.config.min_discussion_turns
  let st := env.state.logHidden "system"
    ("Discussion turn counts: \x7b" ++
      GameState.joinComma (env.state.alive_players.map
        (fun p => p ++ ": " ++ toString (discussionTurnCount env.state p))) ++ "\x7d")
  if env.state.alive_players.all
      (fun p => decide (minTurns ≤ discussionTurnCount env.state p)) then
    ({ env with state := (st.logHidden "system"
        ("All players completed " ++ toString minTurns ++
          " discussion turns. Ending discussion.")) }, true)
  else if aliveCount ≤ env.consecutive_passes then
    ({ env with state := (st.logHidden "system"
        "All players passed consecutively. Ending discussion.") }, true)
  else
    ({ env with state := st }, false)

/-- `MafiaEnvironment._process_day_discussion_action(player, action_type,
target, content)`.  The second `action_type == "accuse"` branch is kept
verbatim although it is unreachable (the first branch already returns on every
truthy-target accuse).  The `action_type == "speak"` sub-branch with truthy
content would call `strip_tags(content)`, a function defined nowhere in the
codebase, raising `NameError`; that sub-branch is itself unreachable from
`process_player_action` (which intercepts every truthy-content speak action)
and the would-be raise is embedded as a failing no-op. -/
def processDayDiscussionAction (env : MafiaEnv) (player : PlayerRec)
    (actionType target content : Option String) : MafiaEnv × Bool :=
  if actionType = some "pass" then
    ({ env with consecutive_passes := env.consecutive_passes + 1,
                state := (env.state.logMessage player.name (player.name ++ " passes.")
                  none "public"),
                turns_taken_this_round := setAdd env.turns_taken_this_round player.name },
     true)
  else if actionType = some "accuse" ∧ optTruthy target = true then
    if env.state.day_count = 0 then
      ({ env with state := (env.state.logHidden player.name
          "Accusations are not allowed on Day 0.") }, false)
    else
      let tgt := target.getD ""
      let pr := playerAccuse env.state player.name tgt
      let st := if pr.2 = true then { pr.1 with player_on_trial := some tgt } else pr.1
      ({ env with state := st,
                  turns_taken_this_round := setAdd env.turns_taken_this_round player.name },
       pr.2)
  else
    let env := { env with consecutive_passes := 0 }
    if actionType = some "accuse" ∧ optTruthy target = true then
      if optTruthy env.state.player_on_trial = true then
        ({ env with state := (env.state.logHidden player.name
            "Cannot accuse; someone is already on trial.") }, false)
      else
        let tgt := target.getD ""
        let pr := playerAccuse env.state player.name tgt
        let st := if pr.2 = true then { pr.1 with player_on_trial := some tgt } else pr.1
        ({ env with state := st,
                    turns_taken_this_round := setAdd env.turns_taken_this_round player.name },
         pr.2)
    else if actionType = some "vote" ∧ optTruthy target = true then
      let pr := playerVoteFor env.state player.name target
      ({ env with state := pr.1,
                  turns_taken_this_round := setAdd env.turns_taken_this_round player.name },
       pr.2)
    else if actionType = some "question" ∧ optTruthy target = true ∧
        optTruthy content = true then
      let tgt := target.getD ""
      let timesAsked := (alookup tgt player.questions_asked_today).getD 0
      if 1 ≤ timesAsked then
        ({ env with state := (env.state.logHidden player.name
            ("Question limit reached for " ++ tgt ++ ".")) }, false)
      else
        let pr := playerQuestion env.state player.name tgt (content.getD "")
        if pr.2 = true then
          let st := { pr.1 with players := (GameState.updatePlayer
              (fun q => { q with questions_asked_today :=
                  (aset tgt (timesAsked + 1) q.questions_asked_today) })
              player.name pr.1.players) }
          ({ env with state := st,
                      question_queue := env.question_queue ++
                        [(player.name, tgt), (player.name, player.name)],
                      turns_taken_this_round :=
                        setAdd env.turns_taken_this_round player.name }, true)
        else
          ({ env with state := pr.1,
                      turns_taken_this_round :=
                        setAdd env.turns_taken_this_round player.name }, false)
    else if actionType = some "predict" ∧ optTruthy target = true ∧
        optTruthy content = true then
      let pr := playerPredictRole env.state player.name (target.getD "") (content.getD "")
      ({ env with state := pr.1,
                  turns_taken_this_round := setAdd env.turns_taken_this_round player.name },
       pr.2)
    else if actionType = some "whisper" ∧ optTruthy target = true ∧
        optTruthy content = true then
      let pr := playerWhisper env.state player.name (target.getD "") (content.getD "")
      ({ env with state := pr.1,
                  turns_taken_this_round := setAdd env.turns_taken_this_round player.name },
       pr.2)
    else if actionType = some "speak" then
      if optTruthy content = true then
        (env, false)
      else
        ({ env with state := (env.state.logHidden player.name
            "Tried to speak but no content was provided.") }, false)
    else if optTruthy content = true then
      ({ env with
          state := (env.state.logMessage player.name (content.getD "") none "public"),
          turns_taken_this_round := setAdd env.turns_taken_this_round player.name },
       true)
    else
      ({ env with state := (env.state.logHidden player.name
          ("Invalid or unrecognized day action: " ++ GameState.optStr actionType)) },
       false)

/-- `MafiaEnvironment._process_voting_phase_action(player, action_type,
target, content)`. -/
def processVotingPhaseAction (env : MafiaEnv) (player : PlayerRec)
    (actionType target _content : Option String) : MafiaEnv × Bool :=
  if actionType = some "vote" ∧ target = env.state.player_on_trial then
    let pr := playerVoteFor env.state player.name target
    ({ env with state := (pr.1.logMessage player.name
        ("votes to lynch " ++ GameState.optStr target ++
          " in the standard voting phase.") none "public") }, true)
  else if actionType = some "skip" then
    ({ env with state := (env.state.logMessage player.name
        (player.name ++ " decides not to vote right now.") none "public") }, true)
  else
    ({ env with state := (env.state.logHidden player.name
        ("Invalid or mismatched action " ++ GameState.optStr actionType ++
          " in VOTING phase.")) }, false)

/-- `MafiaEnvironment._process_final_vote_action(player, action)` (the keys
read from the action dict are `action` and `vote_type`). -/
def processFinalVoteAction (env : MafiaEnv) (player : PlayerRec)
    (actionType voteType : Option String) : MafiaEnv × Bool :=
  let vt := (voteType.getD "").toLower
  if ¬ (actionType = some "vote") then
    ({ env with state := (env.state.logHidden player.name
        ("Expected a vote action in FINAL_VOTE, got " ++
          GameState.optStr actionType ++ ".")) }, false)
  else if vt = "final_guilty" then
    let st := { env.state with votes_for_lynch :=
        (aset player.name true env.state.votes_for_lynch) }
    ({ env with state := (st.logMessage player.name
        ("votes GUILTY on " ++ GameState.optStr st.player_on_trial ++ ".")
        none "public") }, true)
  else if vt = "final_innocent" then
    let st := { env.state with votes_for_lynch :=
        (aset player.name false env.state.votes_for_lynch) }
    ({ env with state := (st.logMessage player.name
        ("votes INNOCENT on " ++ GameState.optStr st.player_on_trial ++ ".")
        none "public") }, true)
  else if vt = "abstain" then
    ({ env with state := (env.state.logMessage player.name
        "abstains from voting." none "public") }, true)
  else
    ({ env with state := (env.state.logHidden player.name
        ("Invalid final vote type: " ++ vt ++
          " (expected \x27final_guilty\x27 or \x27final_innocent\x27).")) }, false)

end MafiaEnv

/-- The `action` dict passed to `process_player_action` (restricted to the
keys the method reads). -/
structure ActionRec where
  action : Option String
  target : Option String
  content : Option String
  predicted_role : Option String
  prediction : Option String
  vote_type : Option String
deriving DecidableEq, Repr

/-- Python rendering of the action dict in f-strings (only ever logged). -/
def ActionRec.render (a : ActionRec) : String :=
  "\x7baction: " ++ GameState.optStr a.action ++ ", target: " ++
    GameState.optStr a.target ++ ", content: " ++ GameState.optStr a.content ++ "\x7d"

namespace MafiaEnv

/-- `MafiaEnvironment.process_player_action(player_name, action)`.  The night
branch reads `player.can_act_at_night()` and passes `player` to
`_validate_night_action` after a possible `predict_role` call; `predict_role`
only writes `predictions` (and logs), so the pre-predict snapshot is used for
those reads. -/
def processPlayerAction (env : MafiaEnv) (playerName : String) (a : ActionRec) :
    MafiaEnv × Bool :=
  match env.state.getPlayer playerName with
  | none =>
      ({ env with state := (env.state.logHidden playerName
          ("Ignored action " ++ a.render ++ "; player dead/invalid.")) }, false)
  | some player =>
      if ¬ (player.alive = true) then
        ({ env with state := (env.state.logHidden playerName
            ("Ignored action " ++ a.render ++ "; player dead/invalid.")) }, false)
      else if env.state.phase = GamePhase.dayDiscussion ∧
          env.state.current_player_turn ≠ some playerName then
        ({ env with state := (env.state.logHidden playerName
            ("Out‑of‑turn action " ++ a.render ++ ".")) }, false)
      else
        let env := { env with state := (env.state.logHidden playerName
            ("Received action: " ++ a.render)) }
        let actionType := a.action
        let target := a.target
        let content := a.content
        let predictedStr := orTruthy a.predicted_role a.prediction
        let res : MafiaEnv × Bool :=
          if env.state.phase = GamePhase.night then
            let pr1 :=
              if actionType = some "predict" ∧ optTruthy target = true ∧
                  optTruthy predictedStr = true then
                playerPredictRole env.state playerName (target.getD "")
                  (predictedStr.getD "")
              else (env.state, false)
            let env := { env with state := pr1.1 }
            if player.canActAtNight = true ∧ actionType ≠ some "predict" then
              let pn := performNightAction env.state playerName
              let vr := validateNightAction pn.1 player pn.2
              let st :=
                match vr.2 with
                | some act => registerNightAction vr.1 playerName act
                | none => vr.1
              ({ env with state := st }, true)
            else
              (env, pr1.2)
          else if env.state.phase = GamePhase.dayDiscussion then
            if actionType = some "speak" ∧ optTruthy content = true then
              let c := content.getD ""
              let tags := parseSpeakTags c
              let questionTargets := tags.question.foldr
                (fun q acc =>
                  (((pySplitComma q).map (fun p => pyStrip p)).filter (fun p => p ≠ ""))
                    ++ acc) []
              let env :=
                if questionTargets ≠ [] then
                  let roundsUsed := (alookup playerName env.question_rounds_taken).getD 0
                  if roundsUsed < 3 then
                    let newTargets := questionTargets.filter
                      (fun tgt => alookup tgt player.questions_asked_today = none)
                    if newTargets ≠ [] then
                      let env := { env with question_rounds_taken :=
                          (aset playerName (roundsUsed + 1) env.question_rounds_taken) }
                      let st := { env.state with players := (GameState.updatePlayer
                          (fun q => { q with questions_asked_today :=
                              (newTargets.foldl (fun d tgt => aset tgt 1 d)
                                q.questions_asked_today) }) playerName
                          env.state.players) }
                      let env := { env with
                          state := st,
                          question_queue :=
                            (((newTargets ++ [playerName]).map (fun w => (playerName, w)))
                              ++ env.question_queue) }
                      { env with state := (env.state.logHidden playerName
                          ("Queued question round for: " ++ renderStrList newTargets)) }
                    else env
                  else
                    { env with state := (env.state.logHidden playerName
                        "Question round limit reached (3).") }
                else env
              let env := { env with
                  state := (env.state.logMessage playerName c none "public"),
                  turns_taken_this_round := setAdd env.turns_taken_this_round playerName }
              let env :=
                if ¬ (optTruthy env.state.player_on_trial = true) then advanceTurn env
                else env
              (env, true)
            else
              let pr := processDayDiscussionAction env player actionType target content
              if pr.2 = true ∧ ¬ (optTruthy pr.1.state.player_on_trial = true) then
                (advanceTurn pr.1, true)
              else pr
          else if env.state.phase = GamePhase.voting then
            processVotingPhaseAction env player actionType target content
          else if env.state.phase = GamePhase.defense then
            if some playerName = env.state.player_on_trial then
              let msg :=
                if optTruthy content = true then "(Defense) " ++ content.getD ""
                else "(Defense) [No statement]"
              ({ env with state := (env.state.logMessage playerName msg none "public") },
               true)
            else
              ({ env with state := (env.state.logHidden playerName
                  "Ignored defense action – not on trial.") }, false)
          else if env.state.phase = GamePhase.finalVote then
            processFinalVoteAction env player actionType a.vote_type
          else (env, false)
        if res.2 = true then res
        else
          ({ res.1 with state := (res.1.state.logHidden playerName
              ("Action " ++ a.render ++ " failed or was invalid.")) }, false)

/-- `MafiaEnvironment.step_phase`. -/
def stepPhase (env : MafiaEnv) : MafiaEnv × Bool :=
  if env.state.game_over = true then (env, true)
  else
    let env :=
      match env.state.phase with
      | GamePhase.night => transitionToDay { env with state := env.state.resolveNight }
      | GamePhase.dayDiscussion =>
          let cr := checkDiscussionEnd env
          if cr.2 = true then transitionToVoting cr.1 else cr.1
      | GamePhase.voting => env
      | GamePhase.defense =>
          let env := { env with state := (env.state.logHidden "system"
              ("Defense phase for " ++ GameState.optStr env.state.player_on_trial ++ ".")) }
          transitionToFinalVote env
      | GamePhase.finalVote => transitionToNight { env with state := env.state.resolveLynch }
      | GamePhase.gameOver => env
    let ce := env.state.checkGameEnd
    ({ env with state := ce.1 }, ce.2)

end MafiaEnv

theorem mem_setAdd (l : List String) (x y : String) :
    y ∈ setAdd l x ↔ y ∈ l ∨ y = x := by
  unfold setAdd
  split
  · constructor
    · exact fun h => Or.inl h
    · rintro (h | rfl)
      · exact h
      · assumption
  · simp

/-- The set of states reachable from an initialized game.  `initialize` and
`kill_player` are the only operations in the repository that write
`alive_players`/`dead_players` or change the set of player names; every other
`GameState`/`MafiaEnvironment` operation is covered by the frame rule, which
fixes those three components. -/
inductive Reachable : GameState → Prop where
  | init (players : List PlayerRec) (cfg : Config) :
      Reachable (GameState.initState players cfg)
  | kill (s : GameState) (n r : String) : Reachable s → Reachable (s.killPlayer n r)
  | frame (s s' : GameState) : Reachable s →
      s'.players.map (fun q => q.name) = s.players.map (fun q => q.name) →
      s'.alive_players = s.alive_players →
      s'.dead_players = s.dead_players →
      Reachable s'

/-- The partition invariant of §8 plus the auxiliary `Nodup` fact the induction
needs. -/
def StrongInv (s : GameState) : Prop :=
  (∀ x, (x ∈ s.alive_players ∨ x ∈ s.dead_players)
      ↔ x ∈ s.players.map (fun q => q.name)) ∧
  (∀ x, ¬(x ∈ s.alive_players ∧ x ∈ s.dead_players)) ∧
  s.alive_players.Nodup

theorem reachable_strongInv (s : GameState) (h : Reachable s) : StrongInv s := by
  induction h with
  | init players cfg =>
      refine ⟨?_, ?_, ?_⟩
      · intro x
        simp [GameState.initState, List.mem_dedup, PlayerRec.resetForNewGame,
              PlayerRec.resetNightState, PlayerRec.resetDayState]
      · intro x
        simp [GameState.initState]
      · simp [GameState.initState]
        exact List.nodup_dedup _
  | kill s n r hr ih =>
      by_cases hn : n ∈ s.alive_players
      · have hsome : (s.getPlayer n).isSome := by
          have hx : n ∈ s.players.map (fun q => q.name) := (ih.1 n).mp (Or.inl hn)
          obtain ⟨p, hmem, hname⟩ := List.mem_map.mp hx
          unfold GameState.getPlayer
          rw [List.find?_isSome]
          exact ⟨p, hmem, by simp [hname]⟩
        obtain ⟨p, hp⟩ := Option.isSome_iff_exists.mp hsome
        obtain ⟨ha, hd, hm⟩ := GameState.killPlayer_fields s n r hn p hp
        obtain ⟨ih1, ih2, ih3⟩ := ih
        refine ⟨?_, ?_, ?_⟩
        · intro x
          rw [ha, hd, hm, mem_setAdd, ← ih1 x]
          constructor
          · rintro (hx | hx | rfl)
            · exact Or.inl (List.mem_of_mem_erase hx)
            · exact Or.inr hx
            · exact Or.inl hn
          · rintro (hx | hx)
            · by_cases hxn : x = n
              · subst hxn; exact Or.inr (Or.inr rfl)
              · exact Or.inl ((List.mem_erase_of_ne hxn).mpr hx)
            · exact Or.inr (Or.inl hx)
        · intro x
          rw [ha, hd, mem_setAdd]
          rintro ⟨hx1, hx2 | rfl⟩
          · exact ih2 x ⟨List.mem_of_mem_erase hx1, hx2⟩
          · exact (List.Nodup.not_mem_erase ih3) hx1
        · rw [ha]; exact ih3.erase n
      · rw [GameState.killPlayer_noop s n r hn]
        exact ih
  | frame s s' hr h1 h2 h3 ih =>
      obtain ⟨ih1, ih2, ih3⟩ := ih
      exact ⟨fun x => by rw [h1, h2, h3]; exact ih1 x,
             fun x => by rw [h2, h3]; exact ih2 x,
             by rw [h2]; exact ih3⟩

/-- C4: in every reachable state, `alive_players` and `dead_players` are
disjoint and their union is the set of all player names; `kill_player` moves a
name from the alive set to the dead set, and is a no-op when the name is
already absent from `alive_players`. -/
theorem claim_c4_partition_and_kill (s : GameState) (n r : String) (h : Reachable s) :
    (∀ x, (x ∈ s.alive_players ∨ x ∈ s.dead_players)
        ↔ x ∈ s.players.map (fun q => q.name)) ∧
    (∀ x, ¬(x ∈ s.alive_players ∧ x ∈ s.dead_players)) ∧
    (n ∈ s.alive_players →
      n ∉ (s.killPlayer n r).alive_players ∧ n ∈ (s.killPlayer n r).dead_players) ∧
    (n ∉ s.alive_players → s.killPlayer n r = s) := by
  obtain ⟨i1, i2, i3⟩ := reachable_strongInv s h
  refine ⟨i1, i2, ?_, GameState.killPlayer_noop s n r⟩
  intro hn
  have hsome : (s.getPlayer n).isSome := by
    have hx : n ∈ s.players.map (fun q => q.name) := (i1 n).mp (Or.inl hn)
    obtain ⟨p, hmem, hname⟩ := List.mem_map.mp hx
    unfold GameState.getPlayer
    rw [List.find?_isSome]
    exact ⟨p, hmem, by simp [hname]⟩
  obtain ⟨p, hp⟩ := Option.isSome_iff_exists.mp hsome
  obtain ⟨ha, hd, _⟩ := GameState.killPlayer_fields s n r hn p hp
  constructor
  · rw [ha]; exact List.Nodup.not_mem_erase i3
  · rw [hd, mem_setAdd]; exact Or.inr rfl

theorem mafiaAliveNames_length (s : GameState)
    (hnd : (s.players.map (fun q => q.name)).Nodup) :
    (GameState.mafiaAliveNames s).length
      = s.players.countP (fun p => p.alive && p.faction == Faction.mafia) := by
  unfold GameState.mafiaAliveNames
  have hsub : List.Sublist
      ((s.players.filter (fun p => p.alive && p.faction == Faction.mafia)).map
        (fun q => q.name))
      (s.players.map (fun q => q.name)) :=
    (List.filter_sublist _).map _
  rw [List.dedup_eq_self.mpr (hnd.sublist hsub), List.length_map,
      ← List.countP_eq_length_filter]

theorem townAliveNames_length (s : GameState)
    (hnd : (s.players.map (fun q => q.name)).Nodup) :
    (GameState.townAliveNames s).length
      = s.players.countP (fun p => p.alive && p.faction == Faction.town) := by
  unfold GameState.townAliveNames
  have hsub : List.Sublist
      ((s.players.filter (fun p => p.alive && p.faction == Faction.town)).map
        (fun q => q.name))
      (s.players.map (fun q => q.name)) :=
    (List.filter_sublist _).map _
  rw [List.dedup_eq_self.mpr (hnd.sublist hsub), List.length_map,
      ← List.countP_eq_length_filter]

/-- C1: `check_game_end` — TOWN wins iff no Mafia-faction player is alive;
otherwise MAFIA wins iff alive-Mafia count ≥ alive-Town count; otherwise the
game continues unchanged.  On a win it sets `game_over`, the winner, phase
`GAME_OVER`, and snapshots every player's final role. -/
theorem claim_c1_check_game_end (s : GameState)
    (hnd : (s.players.map (fun q => q.name)).Nodup)
    (h : s.game_over = false) :
    (s.players.countP (fun p => p.alive && p.faction == Faction.mafia) = 0 →
      (s.checkGameEnd).1.winner = some Faction.town ∧
      (s.checkGameEnd).1.game_over = true ∧
      (s.checkGameEnd).1.phase = GamePhase.gameOver ∧
      (s.checkGameEnd).1.final_player_roles
        = s.players.map (fun p => (p.name, p.role.name))) ∧
    (0 < s.players.countP (fun p => p.alive && p.faction == Faction.mafia) →
     s.players.countP (fun p => p.alive && p.faction == Faction.town)
       ≤ s.players.countP (fun p => p.alive && p.faction == Faction.mafia) →
      (s.checkGameEnd).1.winner = some Faction.mafia ∧
      (s.checkGameEnd).1.game_over = true ∧
      (s.checkGameEnd).1.phase = GamePhase.gameOver ∧
      (s.checkGameEnd).1.final_player_roles
        = s.players.map (fun p => (p.name, p.role.name))) ∧
    (0 < s.players.countP (fun p => p.alive && p.faction == Faction.mafia) →
     s.players.countP (fun p => p.alive && p.faction == Faction.mafia)
       < s.players.countP (fun p => p.alive && p.faction == Faction.town) →
      s.checkGameEnd = (s, false)) := by
  have hm := mafiaAliveNames_length s hnd
  have ht := townAliveNames_length s hnd
  refine ⟨?_, ?_, ?_⟩
  · intro h0
    have hnil : GameState.mafiaAliveNames s = [] := by
      rw [← List.length_eq_zero, hm]; exact h0
    simp [GameState.checkGameEnd, h, hnil, GameState.logMessage, GameState.logHidden]
  · intro h0 hle
    have hne : (GameState.mafiaAliveNames s).isEmpty = false := by
      cases hmc : GameState.mafiaAliveNames s with
      | nil => rw [hmc] at hm; simp at hm; omega
      | cons a l => rfl
    have hle' : (GameState.townAliveNames s).length
        ≤ (GameState.mafiaAliveNames s).length := by rw [hm, ht]; exact hle
    simp [GameState.checkGameEnd, h, hne, hle', GameState.logMessage, GameState.logHidden]
  · intro h0 hlt
    have hne : (GameState.mafiaAliveNames s).isEmpty = false := by
      cases hmc : GameState.mafiaAliveNames s with
      | nil => rw [hmc] at hm; simp at hm; omega
      | cons a l => rfl
    have hlt' : ¬ (GameState.townAliveNames s).length
        ≤ (GameState.mafiaAliveNames s).length := by rw [hm, ht]; omega
    simp [GameState.checkGameEnd, h, hne, hlt']

/-- Concrete game used by the C1 witness: a single Villager, no Mafia. -/
def exStateC1 : GameState :=
  GameState.initState [mkPlayer "Alice" RoleKind.villager] defaultConfig

/-- Witness for C1 at a concrete state with no alive Mafia. -/
theorem claim_c1_check_game_end_witness :
    ((exStateC1.players.map (fun q => q.name)).Nodup ∧ exStateC1.game_over = false) ∧
    (exStateC1.players.countP (fun p => p.alive && p.faction == Faction.mafia) = 0 ∧
     (exStateC1.checkGameEnd).1.winner = some Faction.town ∧
     (exStateC1.checkGameEnd).1.game_over = true) := by
  refine ⟨⟨by decide, by decide⟩, by decide, ?_, ?_⟩
  · exact ((claim_c1_check_game_end exStateC1 (by decide) (by decide)).1 (by decide)).1
  · exact ((claim_c1_check_game_end exStateC1 (by decide) (by decide)).1 (by decide)).2.1

/-- Concrete initialized game used by the C4 witness. -/
def exStateC4 : GameState :=
  GameState.initState [mkPlayer "Alice" RoleKind.villager, mkPlayer "Bob" RoleKind.goon]
    defaultConfig

/-- Witness for C4: the partition and the kill behaviour at a concrete
reachable state. -/
theorem claim_c4_partition_and_kill_witness :
    Reachable exStateC4 ∧
    ("Alice" ∈ exStateC4.alive_players ∧
      "Alice" ∉ (exStateC4.killPlayer "Alice" "test").alive_players ∧
      "Alice" ∈ (exStateC4.killPlayer "Alice" "test").dead_players) ∧
    ("Carol" ∉ exStateC4.alive_players ∧
      exStateC4.killPlayer "Carol" "test" = exStateC4) := by
  have hreach : Reachable exStateC4 := Reachable.init _ _
  have h := claim_c4_partition_and_kill exStateC4 "Alice" "test" hreach
  have h2 := claim_c4_partition_and_kill exStateC4 "Carol" "test" hreach
  exact ⟨hreach, ⟨by decide, h.2.2.1 (by decide)⟩, by decide, h2.2.2.2 (by decide)⟩

theorem alookup_cons {β : Type} (e : String × β) (r : List (String × β)) (x : String) :
    alookup x (e :: r) = if e.1 = x then some e.2 else alookup x r := rfl

theorem alookup_aset_self {β : Type} (k : String) (v : β) (l : List (String × β)) :
    alookup k (aset k v l) = some v := by
  induction l with
  | nil => simp [aset, alookup]
  | cons e r ih =>
      unfold aset
      by_cases h : e.1 = k
      · simp [h, alookup]
      · simp [h, alookup, ih]

theorem alookup_aset_ne {β : Type} (x k : String) (v : β) (l : List (String × β))
    (h : x ≠ k) : alookup x (aset k v l) = alookup x l := by
  induction l with
  | nil => simp [aset, alookup, Ne.symm h]
  | cons e r ih =>
      unfold aset
      by_cases he : e.1 = k
      · simp [he, alookup, Ne.symm h]
      · simp [he, alookup, ih]

theorem alookup_adel_ne {β : Type} (x k : String) (l : List (String × β))
    (h : x ≠ k) : alookup x (adel k l) = alookup x l := by
  induction l with
  | nil => simp [adel]
  | cons e r ih =>
      by_cases he : e.1 = k
      · rw [show adel k (e :: r) = r from by simp [adel, he]]
        rw [alookup_cons, if_neg (show ¬ e.1 = x from by rw [he]; exact Ne.symm h)]
      · rw [show adel k (e :: r) = e :: adel k r from by simp [adel, he]]
        rw [alookup_cons, alookup_cons]
        by_cases hex : e.1 = x
        · rw [if_pos hex, if_pos hex]
        · rw [if_neg hex, if_neg hex]
          exact ih

theorem alookup_eq_none_of_not_mem {β : Type} (k : String) (l : List (String × β))
    (h : k ∉ l.map Prod.fst) : alookup k l = none := by
  induction l with
  | nil => rfl
  | cons e r ih =>
      simp only [List.map_cons, List.mem_cons] at h
      push_neg at h
      unfold alookup
      rw [if_neg (fun hc => h.1 hc.symm)]
      exact ih h.2

theorem alookup_adel_self {β : Type} (k : String) (l : List (String × β))
    (hnd : (l.map Prod.fst).Nodup) : alookup k (adel k l) = none := by
  induction l with
  | nil => rfl
  | cons e r ih =>
      simp only [List.map_cons, List.nodup_cons] at hnd
      unfold adel
      by_cases he : e.1 = k
      · rw [if_pos he]
        exact alookup_eq_none_of_not_mem k r (he ▸ hnd.1)
      · rw [if_neg he]
        unfold alookup
        rw [if_neg he]
        exact ih hnd.2

theorem mem_keys_aset {β : Type} (x k : String) (v : β) (l : List (String × β)) :
    x ∈ (aset k v l).map Prod.fst ↔ x ∈ l.map Prod.fst ∨ x = k := by
  induction l with
  | nil => simp [aset, eq_comm]
  | cons e r ih =>
      unfold aset
      by_cases he : e.1 = k
      · subst he
        rw [if_pos rfl]
        simp only [List.map_cons, List.mem_cons]
        tauto
      · simp only [if_neg he, List.map_cons, List.mem_cons, ih]
        tauto

theorem nodup_keys_aset {β : Type} (k : String) (v : β) (l : List (String × β))
    (hnd : (l.map Prod.fst).Nodup) : ((aset k v l).map Prod.fst).Nodup := by
  induction l with
  | nil => simp [aset]
  | cons e r ih =>
      simp only [List.map_cons, List.nodup_cons] at hnd
      unfold aset
      by_cases he : e.1 = k
      · subst he
        simpa using hnd
      · simp only [if_neg he, List.map_cons, List.nodup_cons]
        refine ⟨?_, ih hnd.2⟩
        rw [mem_keys_aset]
        rintro (hc | hc)
        · exact hnd.1 hc
        · exact he hc

theorem adel_sublist {β : Type} (k : String) (l : List (String × β)) :
    List.Sublist (adel k l) l := by
  induction l with
  | nil => simp [adel]
  | cons e r ih =>
      unfold adel
      by_cases he : e.1 = k
      · rw [if_pos he]
        exact List.sublist_cons_self e r
      · rw [if_neg he]
        exact ih.cons₂ e

theorem nodup_keys_adel {β : Type} (k : String) (l : List (String × β))
    (hnd : (l.map Prod.fst).Nodup) : ((adel k l).map Prod.fst).Nodup :=
  hnd.sublist ((adel_sublist k l).map Prod.fst)

theorem cntVotes_cons (e : String × String) (r : List (String × String)) (t : String) :
    cntVotes (e :: r) t = cntVotes r t + (if e.2 = t then 1 else 0) := by
  by_cases h : e.2 = t
  · simp [cntVotes, List.filter_cons, h]
  · simp [cntVotes, List.filter_cons, h]

theorem cntVotes_aset_some (votes : List (String × String)) (v o nt : String)
    (h : alookup v votes = some o) (t : String) :
    cntVotes (aset v nt votes) t + (if o = t then 1 else 0)
      = cntVotes votes t + (if nt = t then 1 else 0) := by
  induction votes with
  | nil => simp [alookup] at h
  | cons e r ih =>
      by_cases he : e.1 = v
      · have ho : e.2 = o := by simpa [alookup, he] using h
        subst ho
        rw [show aset v nt (e :: r) = (v, nt) :: r from by simp [aset, he]]
        rw [cntVotes_cons, cntVotes_cons]
        dsimp only
        split_ifs <;> omega
      · have h' : alookup v r = some o := by simpa [alookup, he] using h
        rw [show aset v nt (e :: r) = e :: aset v nt r from by simp [aset, he]]
        rw [cntVotes_cons, cntVotes_cons]
        have := ih h'
        omega

theorem cntVotes_aset_none (votes : List (String × String)) (v nt : String)
    (h : alookup v votes = none) (t : String) :
    cntVotes (aset v nt votes) t = cntVotes votes t + (if nt = t then 1 else 0) := by
  induction votes with
  | nil =>
      rw [show aset v nt ([] : List (String × String)) = [(v, nt)] from rfl, cntVotes_cons]
  | cons e r ih =>
      have he : ¬ e.1 = v := by
        intro hc
        simp [alookup, hc] at h
      have h' : alookup v r = none := by simpa [alookup, he] using h
      rw [show aset v nt (e :: r) = e :: aset v nt r from by simp [aset, he]]
      rw [cntVotes_cons, cntVotes_cons]
      have := ih h'
      omega

theorem cntVotes_pos (votes : List (String × String)) (v o : String)
    (h : alookup v votes = some o) : 0 < cntVotes votes o := by
  induction votes with
  | nil => simp [alookup] at h
  | cons e r ih =>
      by_cases he : e.1 = v
      · have ho : e.2 = o := by simpa [alookup, he] using h
        rw [cntVotes_cons]
        simp [ho]
      · have h' : alookup v r = some o := by simpa [alookup, he] using h
        rw [cntVotes_cons]
        have := ih h'
        omega

theorem decOldTarget_spec (counts : List (String × Int)) (o : String)
    (ho : o ≠ "") (c : Nat) (hc : alookup o counts = some (c : Int)) (hcpos : 0 < c)
    (hkeys : (counts.map Prod.fst).Nodup) :
    (∀ t, alookup t (decOldTarget counts o)
        = if t = o then (if c = 1 then none else some ((c - 1 : Nat) : Int))
          else alookup t counts) ∧
    ((decOldTarget counts o).map Prod.fst).Nodup := by
  unfold decOldTarget
  rw [if_pos ⟨ho, by rw [hc]; rfl⟩, hc]
  dsimp only [Option.getD_some]
  by_cases h1 : c = 1
  · subst h1
    rw [if_pos (by norm_num)]
    constructor
    · intro t
      by_cases hto : t = o
      · subst hto
        rw [alookup_adel_self _ _ (nodup_keys_aset _ _ _ hkeys), if_pos rfl, if_pos rfl]
      · rw [alookup_adel_ne _ _ _ hto, alookup_aset_ne _ _ _ _ hto, if_neg hto]
    · exact nodup_keys_adel _ _ (nodup_keys_aset _ _ _ hkeys)
  · rw [if_neg (show ¬ ((c : Int) - 1 ≤ 0) by omega)]
    constructor
    · intro t
      by_cases hto : t = o
      · subst hto
        rw [alookup_aset_self, if_pos rfl, if_neg h1]
        congr 1
        omega
      · rw [alookup_aset_ne _ _ _ _ hto, if_neg hto]
    · exact nodup_keys_aset _ _ _ hkeys

/-- C5: after `update_vote_counts(voter, old_target, new_target)` with
`old_target` the voter's previously recorded accusation vote (`None` when
absent), `accusation_counts[t]` equals the number of voters whose current
`votes_for_accusation` entry is `t`, with the key removed at zero; the dicts
keep distinct keys.  (The previously recorded vote is assumed to be a non-empty
name, matching the Python truthiness test `if old_target`.) -/
theorem claim_c5_update_vote_counts (s : GameState) (voter newTarget : String)
    (oldTarget : Option String)
    (hold : oldTarget = alookup voter s.votes_for_accusation)
    (hne : ∀ o, oldTarget = some o → o ≠ "")
    (hkeysC : (s.accusation_counts.map Prod.fst).Nodup)
    (hkeysV : (s.votes_for_accusation.map Prod.fst).Nodup)
    (hinv : ∀ t, alookup t s.accusation_counts
        = if cntVotes s.votes_for_accusation t = 0 then none
          else some (cntVotes s.votes_for_accusation t : Int)) :
    (∀ t, alookup t (s.updateVoteCounts voter oldTarget newTarget).accusation_counts
        = if cntVotes (s.updateVoteCounts voter oldTarget newTarget).votes_for_accusation t = 0
          then none
          else some (cntVotes
            (s.updateVoteCounts voter oldTarget newTarget).votes_for_accusation t : Int)) ∧
    ((s.updateVoteCounts voter oldTarget newTarget).accusation_counts.map Prod.fst).Nodup ∧
    ((s.updateVoteCounts voter oldTarget newTarget).votes_for_accusation.map
      Prod.fst).Nodup := by
  cases oldTarget with
  | none =>
      have hv : alookup voter s.votes_for_accusation = none := hold.symm
      have hC : (s.updateVoteCounts voter none newTarget).accusation_counts
          = aset newTarget ((alookup newTarget s.accusation_counts).getD 0 + 1)
              s.accusation_counts := rfl
      have hV : (s.updateVoteCounts voter none newTarget).votes_for_accusation
          = aset voter newTarget s.votes_for_accusation := rfl
      refine ⟨?_, ?_, ?_⟩
      · intro t
        rw [hC, hV, cntVotes_aset_none _ _ _ hv t]
        by_cases ht : t = newTarget
        · subst ht
          rw [alookup_aset_self, if_pos rfl]
          have h0 := hinv t
          by_cases hz : cntVotes s.votes_for_accusation t = 0
          · rw [if_pos hz] at h0
            rw [h0, hz]
            simp
          · rw [if_neg hz] at h0
            rw [h0, if_neg (by omega)]
            simp
        · rw [alookup_aset_ne _ _ _ _ ht,
              if_neg (show ¬ newTarget = t from fun hc => ht hc.symm)]
          simpa using hinv t
      · rw [hC]
        exact nodup_keys_aset _ _ _ hkeysC
      · rw [hV]
        exact nodup_keys_aset _ _ _ hkeysV
  | some o =>
      have ho : o ≠ "" := hne o rfl
      have hv : alookup voter s.votes_for_accusation = some o := hold.symm
      have hcpos : 0 < cntVotes s.votes_for_accusation o := cntVotes_pos _ _ _ hv
      have hc : alookup o s.accusation_counts
          = some ((cntVotes s.votes_for_accusation o : Nat) : Int) := by
        have h0 := hinv o
        rw [if_neg (by omega)] at h0
        exact h0
      obtain ⟨hdl, hdnd⟩ :=
        decOldTarget_spec s.accusation_counts o ho _ hc hcpos hkeysC
      have hC : (s.updateVoteCounts voter (some o) newTarget).accusation_counts
          = aset newTarget
              ((alookup newTarget (decOldTarget s.accusation_counts o)).getD 0 + 1)
              (decOldTarget s.accusation_counts o) := rfl
      have hV : (s.updateVoteCounts voter (some o) newTarget).votes_for_accusation
          = aset voter newTarget s.votes_for_accusation := rfl
      have hrel := fun t => cntVotes_aset_some s.votes_for_accusation voter o newTarget hv t
      refine ⟨?_, ?_, ?_⟩
      · intro t
        rw [hC, hV]
        by_cases ht : t = newTarget
        · subst ht
          rw [alookup_aset_self]
          by_cases hto : t = o
          · subst hto
            have hcnt : cntVotes (aset voter t s.votes_for_accusation) t
                = cntVotes s.votes_for_accusation t := by
              have h0 := hrel t
              rw [if_pos rfl] at h0
              omega
            rw [hdl t, if_pos rfl, hcnt]
            by_cases h1 : cntVotes s.votes_for_accusation t = 1
            · rw [if_pos h1, h1]
              simp
            · rw [if_neg h1, if_neg (by omega)]
              dsimp only [Option.getD_some]
              congr 1
              omega
          · have hcnt : cntVotes (aset voter t s.votes_for_accusation) t
                = cntVotes s.votes_for_accusation t + 1 := by
              have h0 := hrel t
              rw [if_neg (show ¬ o = t from fun hc => hto hc.symm), if_pos rfl] at h0
              omega
            rw [hdl t, if_neg hto, hcnt]
            have h0 := hinv t
            by_cases hz : cntVotes s.votes_for_accusation t = 0
            · rw [if_pos hz] at h0
              rw [h0, hz]
              simp
            · rw [if_neg hz] at h0
              rw [h0, if_neg (by omega)]
              simp
        · rw [alookup_aset_ne _ _ _ _ ht]
          by_cases hto : t = o
          · subst hto
            have hcnt : cntVotes (aset voter newTarget s.votes_for_accusation) t
                = cntVotes s.votes_for_accusation t - 1 := by
              have h0 := hrel t
              rw [if_pos rfl,
                  if_neg (show ¬ newTarget = t from fun hc => ht hc.symm)] at h0
              omega
            rw [hdl t, if_pos rfl, hcnt]
            by_cases h1 : cntVotes s.votes_for_accusation t = 1
            · rw [if_pos h1, if_pos (by omega)]
            · rw [if_neg h1, if_neg (by omega)]
          · have hcnt : cntVotes (aset voter newTarget s.votes_for_accusation) t
                = cntVotes s.votes_for_accusation t := by
              have h0 := hrel t
              rw [if_neg (show ¬ o = t from fun hc => hto hc.symm),
                  if_neg (show ¬ newTarget = t from fun hc => ht hc.symm)] at h0
              omega
            rw [hdl t, if_neg hto, hcnt]
            exact hinv t
      · rw [hC]
        exact nodup_keys_aset _ _ _ hdnd
      · rw [hV]
        exact nodup_keys_aset _ _ _ hkeysV

/-- Concrete state for the C5 witness: Alice and Bob both vote Carol, then
Alice switches to Dave. -/
def exStateC5 : GameState :=
  { GameState.initState
      [mkPlayer "Alice" RoleKind.villager, mkPlayer "Bob" RoleKind.villager,
       mkPlayer "Carol" RoleKind.villager, mkPlayer "Dave" RoleKind.godfather]
      defaultConfig with
    votes_for_accusation := [("Alice", "Carol"), ("Bob", "Carol")]
    accusation_counts := [("Carol", 2)] }

/-- Witness for C5 at a concrete vote switch. -/
theorem claim_c5_update_vote_counts_witness :
    (some "Carol" = alookup "Alice" exStateC5.votes_for_accusation ∧
     (∀ t, alookup t exStateC5.accusation_counts
        = if cntVotes exStateC5.votes_for_accusation t = 0 then none
          else some (cntVotes exStateC5.votes_for_accusation t : Int))) ∧
    (∀ t, alookup t (exStateC5.updateVoteCounts "Alice" (some "Carol") "Dave").accusation_counts
        = if cntVotes (exStateC5.updateVoteCounts "Alice" (some "Carol")
              "Dave").votes_for_accusation t = 0
          then none
          else some (cntVotes (exStateC5.updateVoteCounts "Alice" (some "Carol")
              "Dave").votes_for_accusation t : Int)) := by
  have hinv : ∀ t, alookup t exStateC5.accusation_counts
      = if cntVotes exStateC5.votes_for_accusation t = 0 then none
        else some (cntVotes exStateC5.votes_for_accusation t : Int) := by
    intro t
    show alookup t [("Carol", (2 : Int))]
        = if cntVotes [("Alice", "Carol"), ("Bob", "Carol")] t = 0 then none
          else some (cntVotes [("Alice", "Carol"), ("Bob", "Carol")] t : Int)
    by_cases h : "Carol" = t
    · subst h
      decide
    · simp [cntVotes, alookup, List.filter, h]
  refine ⟨⟨by decide, hinv⟩, ?_⟩
  exact (claim_c5_update_vote_counts exStateC5 "Alice" "Dave" (some "Carol")
    (by decide) (fun o ho => by cases ho; decide) (by decide) (by decide) hinv).1

theorem killPlayer_moves (u : GameState) (n r : String) (hn : n ∈ u.alive_players)
    (hnd : u.alive_players.Nodup) (p : PlayerRec) (hp : u.getPlayer n = some p) :
    n ∉ (u.killPlayer n r).alive_players ∧ n ∈ (u.killPlayer n r).dead_players := by
  obtain ⟨ha, hd, _⟩ := GameState.killPlayer_fields u n r hn p hp
  constructor
  · rw [ha]
    exact List.Nodup.not_mem_erase hnd
  · rw [hd, mem_setAdd]
    exact Or.inr rfl

theorem resolveLynch_some (s : GameState) (accused : String)
    (htrial : s.player_on_trial = some accused) (hacc : accused ≠ "") :
    s.resolveLynch =
      (let guilty := (s.votes_for_lynch.filter (fun e => e.2 = true)).length
       let innocent := s.votes_for_lynch.length - guilty
       let totalAlive := s.alive_players.length
       let needed := totalAlive / 2 + 1
       let s1 := s.logMessage "system"
         ("Vote Results for " ++ accused ++ ": Guilty=" ++ toString guilty ++
          ", Innocent=" ++ toString innocent ++ ". Need " ++ toString needed ++ " to lynch.")
         none "public"
       let s1 := s1.logHidden "system" "Final Votes recorded"
       let s2 :=
         if needed ≤ guilty then
           let sA := s1.logMessage "system"
             ("The town has decided to lynch " ++ accused ++ "!") none "public"
           sA.killPlayer accused "lynched"
         else
           s1.logMessage "system"
             ("The vote is inconclusive, sparing " ++ accused ++ ".") none "public"
       { s2 with player_on_trial := none }) := by
  unfold GameState.resolveLynch
  rw [htrial]
  exact if_neg hacc

/-- C3: `_resolve_lynch` with a player on trial lynches the accused iff the
explicit guilty votes reach `floor(alive/2) + 1`, otherwise changes neither the
alive nor the dead set, and clears `player_on_trial` unconditionally in both
cases. -/
theorem claim_c3_resolve_lynch (s : GameState) (accused : String)
    (htrial : s.player_on_trial = some accused)
    (hacc : accused ≠ "")
    (halive : accused ∈ s.alive_players)
    (hnd : s.alive_players.Nodup)
    (p : PlayerRec) (hp : s.getPlayer accused = some p) :
    (s.alive_players.length / 2 + 1
        ≤ (s.votes_for_lynch.filter (fun e => e.2 = true)).length →
      accused ∉ (s.resolveLynch).alive_players ∧
      accused ∈ (s.resolveLynch).dead_players) ∧
    ((s.votes_for_lynch.filter (fun e => e.2 = true)).length
        < s.alive_players.length / 2 + 1 →
      (s.resolveLynch).alive_players = s.alive_players ∧
      (s.resolveLynch).dead_players = s.dead_players) ∧
    (s.resolveLynch).player_on_trial = none := by
  rw [resolveLynch_some s accused htrial hacc]
  dsimp only
  refine ⟨?_, ?_, ?_⟩
  · intro hle
    rw [if_pos hle]
    exact killPlayer_moves _ accused "lynched" halive hnd p hp
  · intro hlt
    rw [if_neg (by omega)]
    exact ⟨rfl, rfl⟩
  · rfl

/-- Concrete state for the C3 witness: 7 alive players, Bob on trial,
4 guilty / 3 innocent final votes. -/
def exStateC3 : GameState :=
  { GameState.initState
      [mkPlayer "Alice" RoleKind.villager, mkPlayer "Bob" RoleKind.villager,
       mkPlayer "Carol" RoleKind.villager, mkPlayer "Dave" RoleKind.villager,
       mkPlayer "Eve" RoleKind.cop, mkPlayer "Frank" RoleKind.godfather,
       mkPlayer "Grace" RoleKind.goon] defaultConfig with
    phase := GamePhase.finalVote
    day_count := 1
    player_on_trial := some "Bob"
    votes_for_lynch := [("Alice", true), ("Carol", true), ("Dave", true), ("Eve", true),
                        ("Frank", false), ("Grace", false), ("Bob", false)] }

/-- Concrete state for the C3 witness: 7 alive players, Bob on trial,
3 guilty / 4 innocent final votes. -/
def exStateC3b : GameState :=
  { exStateC3 with
    votes_for_lynch := [("Alice", true), ("Carol", true), ("Dave", true), ("Eve", false),
                        ("Frank", false), ("Grace", false), ("Bob", false)] }

/-- Witness for C3: 4 guilty of 7 alive lynches, 3 guilty of 7 does not, and
both clear `player_on_trial`. -/
theorem claim_c3_resolve_lynch_witness :
    (exStateC3.player_on_trial = some "Bob" ∧
     exStateC3.alive_players.length = 7 ∧
     (exStateC3.votes_for_lynch.filter (fun e => e.2 = true)).length = 4 ∧
     "Bob" ∉ (exStateC3.resolveLynch).alive_players ∧
     "Bob" ∈ (exStateC3.resolveLynch).dead_players) ∧
    ((exStateC3b.votes_for_lynch.filter (fun e => e.2 = true)).length = 3 ∧
     (exStateC3b.resolveLynch).alive_players = exStateC3b.alive_players ∧
     (exStateC3b.resolveLynch).dead_players = exStateC3b.dead_players ∧
     (exStateC3b.resolveLynch).player_on_trial = none) := by
  have h1 := claim_c3_resolve_lynch exStateC3 "Bob" (by decide) (by decide) (by decide)
    (by decide) (mkPlayer "Bob" RoleKind.villager) (by decide)
  have h2 := claim_c3_resolve_lynch exStateC3b "Bob" (by decide) (by decide) (by decide)
    (by decide) (mkPlayer "Bob" RoleKind.villager) (by decide)
  refine ⟨⟨by decide, by decide, by decide, h1.1 (by decide)⟩,
          by decide, (h2.2.1 (by decide)).1, (h2.2.1 (by decide)).2, h2.2.2⟩

theorem isAlive_iff (s : GameState) (x : String) :
    s.isAlive x = true ↔ x ∈ s.alive_players := by
  simp [GameState.isAlive]

theorem alookup_append {β : Type} (k : String) (l₁ l₂ : List (String × β)) :
    alookup k (l₁ ++ l₂)
      = match alookup k l₁ with
        | some v => some v
        | none => alookup k l₂ := by
  induction l₁ with
  | nil => rfl
  | cons e r ih =>
      rw [List.cons_append, alookup_cons, alookup_cons]
      by_cases he : e.1 = k
      · rw [if_pos he, if_pos he]
      · rw [if_neg he, if_neg he, ih]

/-- The hidden log only grows: `v` extends `u`'s hidden log. -/
def LogExt (u v : GameState) : Prop :=
  ∃ l, v.hidden_log = u.hidden_log ++ l

theorem logExt_refl (u : GameState) : LogExt u u :=
  ⟨[], (List.append_nil _).symm⟩

theorem logExt_trans {u v w : GameState} (h1 : LogExt u v) (h2 : LogExt v w) :
    LogExt u w := by
  obtain ⟨l1, h1⟩ := h1
  obtain ⟨l2, h2⟩ := h2
  exact ⟨l1 ++ l2, by rw [h2, h1, List.append_assoc]⟩

theorem logExt_mem {u v : GameState} (h : LogExt u v) {e : HiddenEntry}
    (he : e ∈ u.hidden_log) : e ∈ v.hidden_log := by
  obtain ⟨l, hl⟩ := h
  rw [hl]
  exact List.mem_append_left _ he

theorem checkGameEnd_log_ext (u : GameState) : LogExt u (u.checkGameEnd).1 := by
  unfold GameState.checkGameEnd
  split
  · exact logExt_refl _
  · dsimp only
    split
    · exact ⟨_, rfl⟩
    · exact logExt_refl _

theorem promoteGoonToGf_log_ext (u : GameState) (d : String) :
    LogExt u (u.promoteGoonToGf d) := by
  unfold GameState.promoteGoonToGf
  split
  · exact ⟨_, rfl⟩
  · exact ⟨_, rfl⟩

theorem killPlayer_no_player (u : GameState) (n r : String) (hn : n ∈ u.alive_players)
    (hp : u.getPlayer n = none) : u.killPlayer n r = u := by
  unfold GameState.killPlayer
  rw [if_neg (by simp [hn]), hp]

theorem killPlayer_log_ext (u : GameState) (n r : String) : LogExt u (u.killPlayer n r) := by
  unfold GameState.killPlayer
  split
  · exact logExt_refl _
  · split
    · exact logExt_refl _
    · refine logExt_trans ?_ (checkGameEnd_log_ext _)
      split
      · exact logExt_trans ⟨_, rfl⟩ (promoteGoonToGf_log_ext _ _)
      · exact ⟨_, rfl⟩

theorem killPlayer_alive_other (u : GameState) (n r y : String) (hy : y ≠ n) :
    (y ∈ (u.killPlayer n r).alive_players ↔ y ∈ u.alive_players) := by
  by_cases hn : n ∈ u.alive_players
  · cases hp : u.getPlayer n with
    | none => rw [killPlayer_no_player u n r hn hp]
    | some p =>
        obtain ⟨ha, _, _⟩ := GameState.killPlayer_fields u n r hn p hp
        rw [ha]
        exact List.mem_erase_of_ne hy
  · rw [GameState.killPlayer_noop u n r hn]

theorem killPlayer_dead_mono (u : GameState) (n r y : String) (hy : y ∈ u.dead_players) :
    y ∈ (u.killPlayer n r).dead_players := by
  by_cases hn : n ∈ u.alive_players
  · cases hp : u.getPlayer n with
    | none => rw [killPlayer_no_player u n r hn hp]; exact hy
    | some p =>
        obtain ⟨_, hd, _⟩ := GameState.killPlayer_fields u n r hn p hp
        rw [hd, mem_setAdd]
        exact Or.inl hy
  · rw [GameState.killPlayer_noop u n r hn]; exact hy

theorem killPlayer_alive_nodup (u : GameState) (n r : String)
    (hnd : u.alive_players.Nodup) : (u.killPlayer n r).alive_players.Nodup := by
  by_cases hn : n ∈ u.alive_players
  · cases hp : u.getPlayer n with
    | none => rw [killPlayer_no_player u n r hn hp]; exact hnd
    | some p =>
        obtain ⟨ha, _, _⟩ := GameState.killPlayer_fields u n r hn p hp
        rw [ha]
        exact hnd.erase n
  · rw [GameState.killPlayer_noop u n r hn]; exact hnd

theorem killPlayer_names (u : GameState) (n r : String) :
    (u.killPlayer n r).players.map (fun q => q.name)
      = u.players.map (fun q => q.name) := by
  by_cases hn : n ∈ u.alive_players
  · cases hp : u.getPlayer n with
    | none => rw [killPlayer_no_player u n r hn hp]
    | some p =>
        obtain ⟨_, _, hm⟩ := GameState.killPlayer_fields u n r hn p hp
        exact hm
  · rw [GameState.killPlayer_noop u n r hn]

theorem getPlayer_isSome_iff (u : GameState) (y : String) :
    (u.getPlayer y).isSome ↔ y ∈ u.players.map (fun q => q.name) := by
  unfold GameState.getPlayer
  rw [List.find?_isSome, List.mem_map]
  constructor
  · rintro ⟨p, hp, hname⟩
    exact ⟨p, hp, by simpa using hname⟩
  · rintro ⟨p, hp, hname⟩
    exact ⟨p, hp, by simpa using hname⟩

theorem foldl_preserve {α γ : Type} (proj : GameState → α) (step : GameState → γ → GameState)
    (hstep : ∀ t x, proj (step t x) = proj t) (l : List γ) :
    ∀ init : GameState, proj (List.foldl step init l) = proj init := by
  induction l with
  | nil => intro init; rfl
  | cons x r ih =>
      intro init
      rw [List.foldl_cons, ih, hstep]

theorem foldl_log_ext {γ : Type} (step : GameState → γ → GameState)
    (hstep : ∀ t x, LogExt t (step t x)) (l : List γ) :
    ∀ init : GameState, LogExt init (List.foldl step init l) := by
  induction l with
  | nil => intro init; exact logExt_refl _
  | cons x r ih =>
      intro init
      rw [List.foldl_cons]
      exact logExt_trans (hstep init x) (ih (step init x))

/-- The projection preserved by every night step that kills nobody. -/
def coreProj (t : GameState) : List String × List String × List String :=
  (t.alive_players, t.dead_players, t.players.map (fun q => q.name))

theorem rbDetectStep_core (s0 t : GameState) (e : String × NightAction) :
    coreProj (GameState.rbDetectStep s0 t e) = coreProj t := by
  unfold GameState.rbDetectStep
  split
  · split
    · cases GameState.truthyAliveTarget s0 e.2.target <;> simp [coreProj]
    · split
      · cases GameState.truthyAliveTarget s0 e.2.target <;> simp [coreProj]
      · rfl
  · rfl

theorem rbDetectStep_log_ext (s0 t : GameState) (e : String × NightAction) :
    LogExt t (GameState.rbDetectStep s0 t e) := by
  unfold GameState.rbDetectStep
  split
  · split
    · cases GameState.truthyAliveTarget s0 e.2.target
      · exact logExt_refl _
      · exact ⟨_, rfl⟩
    · split
      · cases GameState.truthyAliveTarget s0 e.2.target
        · exact logExt_refl _
        · exact ⟨_, rfl⟩
      · exact logExt_refl _
  · exact logExt_refl _

theorem rbFlagStep_core (t : GameState) (b : String) :
    coreProj (GameState.rbFlagStep t b) = coreProj t := by
  simp [coreProj, GameState.rbFlagStep,
    GameState.updatePlayer_map_name (fun p => { p with is_roleblocked := true })
      (fun _ => rfl) b]

theorem bmFlagStep_core (t : GameState) (b : String) :
    coreProj (GameState.bmFlagStep t b) = coreProj t := by
  simp [coreProj, GameState.bmFlagStep,
    GameState.updatePlayer_map_name (fun p => { p with can_speak_today := false })
      (fun _ => rfl) b]

theorem protApplyStep_core (t : GameState) (pr : String × String) :
    coreProj (GameState.protApplyStep t pr) = coreProj t := by
  simp [coreProj, GameState.protApplyStep,
    GameState.updatePlayer_map_name (fun p => { p with protected_by := some pr.2 })
      (fun _ => rfl) pr.1]

theorem killResolveLogStep_core (prot : List (String × String)) (t : GameState)
    (kt : String × String) :
    coreProj (GameState.killResolveLogStep prot t kt) = coreProj t := by
  unfold GameState.killResolveLogStep
  cases alookup kt.2 prot <;> simp [coreProj]

theorem nightPreKill_core (s0 : GameState) : coreProj (s0.nightPreKill) = coreProj s0 := by
  unfold GameState.nightPreKill
  dsimp only
  rw [foldl_preserve coreProj _ (killResolveLogStep_core (GameState.protectedOf s0)),
      foldl_preserve coreProj _ (fun t kt => by simp [coreProj, GameState.killAttemptLogStep]),
      foldl_preserve coreProj _ protApplyStep_core,
      foldl_preserve coreProj _ bmFlagStep_core,
      foldl_preserve coreProj _ rbFlagStep_core,
      foldl_preserve coreProj _ (rbDetectStep_core s0)]
  simp [coreProj]

theorem nightPreKill_log_ext (s0 : GameState) : LogExt s0 (s0.nightPreKill) := by
  unfold GameState.nightPreKill
  dsimp only
  refine logExt_trans (v := { s0.logMessage "system"
      "Night ends. Resolving all night actions..." none "public" with
      night_action_results := [] }) ⟨[], (List.append_nil _).symm⟩ ?_
  refine logExt_trans
    (foldl_log_ext (GameState.rbDetectStep s0) (rbDetectStep_log_ext s0)
      s0.night_actions_submitted _) ?_
  refine logExt_trans
    (foldl_log_ext GameState.rbFlagStep (fun t b => ⟨[], (List.append_nil _).symm⟩)
      (GameState.roleblockedOf s0) _) ?_
  refine logExt_trans
    (foldl_log_ext GameState.bmFlagStep (fun t b => ⟨[], (List.append_nil _).symm⟩)
      (GameState.blackmailedOf s0) _) ?_
  refine logExt_trans
    (foldl_log_ext GameState.protApplyStep (fun t pr => ⟨_, rfl⟩)
      (GameState.protectedOf s0) _) ?_
  refine logExt_trans
    (foldl_log_ext GameState.killAttemptLogStep (fun t kt => ⟨_, rfl⟩)
      (GameState.killsAttemptedOf s0) _) ?_
  refine foldl_log_ext (GameState.killResolveLogStep (GameState.protectedOf s0))
    (fun t kt => ?_) (GameState.killsAttemptedOf s0) _
  unfold GameState.killResolveLogStep
  cases alookup kt.2 (GameState.protectedOf s0)
  · exact ⟨_, rfl⟩
  · exact ⟨_, by dsimp only [GameState.logHidden]; rw [List.append_assoc]⟩

theorem applyKills_log_ext (victims : List String) :
    ∀ s : GameState, LogExt s (GameState.applyKills s victims).1 := by
  induction victims with
  | nil => intro s; exact logExt_refl _
  | cons v r ih =>
      intro s
      unfold GameState.applyKills
      split
      · exact logExt_trans (killPlayer_log_ext s v "killed during night") (ih _)
      · exact ih s

theorem applyKills_alive_other (y : String) (victims : List String) :
    ∀ s : GameState, y ∉ victims →
      (y ∈ (GameState.applyKills s victims).1.alive_players ↔ y ∈ s.alive_players) := by
  induction victims with
  | nil => intro s _; exact Iff.rfl
  | cons v r ih =>
      intro s hy
      have hyv : y ≠ v := fun hc => hy (hc ▸ List.mem_cons_self v r)
      have hyr : y ∉ r := fun hc => hy (List.mem_cons_of_mem v hc)
      unfold GameState.applyKills
      split
      · dsimp only
        rw [ih _ hyr]
        exact killPlayer_alive_other s v "killed during night" y hyv
      · exact ih s hyr

theorem applyKills_dead_mono (y : String) (victims : List String) :
    ∀ s : GameState, y ∈ s.dead_players →
      y ∈ (GameState.applyKills s victims).1.dead_players := by
  induction victims with
  | nil => intro s h; exact h
  | cons v r ih =>
      intro s hy
      unfold GameState.applyKills
      split
      · exact ih _ (killPlayer_dead_mono s v "killed during night" y hy)
      · exact ih s hy

theorem applyKills_kills (X : String) (victims : List String) :
    ∀ s : GameState, victims.Nodup → X ∈ victims → X ∈ s.alive_players →
      s.alive_players.Nodup → X ∈ s.players.map (fun q => q.name) →
      X ∉ (GameState.applyKills s victims).1.alive_players ∧
      X ∈ (GameState.applyKills s victims).1.dead_players := by
  induction victims with
  | nil => intro s _ hX; cases hX
  | cons v r ih =>
      intro s hnd hX halive hndalive hname
      rw [List.nodup_cons] at hnd
      unfold GameState.applyKills
      by_cases hvX : v = X
      · subst hvX
        rw [if_pos (by rw [isAlive_iff]; exact halive)]
        dsimp only
        have hp : (s.getPlayer v).isSome := (getPlayer_isSome_iff s v).mpr hname
        obtain ⟨p, hp⟩ := Option.isSome_iff_exists.mp hp
        obtain ⟨hdead1, hdead2⟩ :=
          killPlayer_moves s v "killed during night" halive hndalive p hp
        constructor
        · rw [applyKills_alive_other v r _ hnd.1]
          exact hdead1
        · exact applyKills_dead_mono v r _ hdead2
      · have hXr : X ∈ r := by
          cases List.mem_cons.mp hX with
          | inl h => exact absurd h.symm hvX
          | inr h => exact h
        split
        · dsimp only
          refine ih _ hnd.2 hXr ?_ ?_ ?_
          · exact (killPlayer_alive_other s v "killed during night" X
              (fun hc => hvX hc.symm)).mpr halive
          · exact killPlayer_alive_nodup s v "killed during night" hndalive
          · rw [killPlayer_names]
            exact hname
        · exact ih s hnd.2 hXr halive hndalive hname

theorem investStep_core (rb : List String) (t : GameState) (e : String × NightAction) :
    coreProj (GameState.investStep rb t e) = coreProj t := by
  unfold GameState.investStep
  split
  · rfl
  · split
    · rfl
    · split
      · simp [coreProj, GameState.logHidden]
      · rfl

theorem investStep_log_ext (rb : List String) (t : GameState) (e : String × NightAction) :
    LogExt t (GameState.investStep rb t e) := by
  unfold GameState.investStep
  split
  · exact logExt_refl _
  · split
    · exact logExt_refl _
    · split
      · exact ⟨_, rfl⟩
      · exact logExt_refl _

theorem nightPostKill_core (s0 t0 : GameState) (deaths : List String) :
    coreProj (GameState.nightPostKill s0 t0 deaths) = coreProj t0 := by
  unfold GameState.nightPostKill
  dsimp only
  have h := foldl_preserve coreProj _ (investStep_core (GameState.roleblockedOf s0))
    s0.night_actions_submitted t0
  split <;> simpa [coreProj] using h

theorem nightPostKill_log_ext (s0 t0 : GameState) (deaths : List String) :
    LogExt t0 (GameState.nightPostKill s0 t0 deaths) := by
  unfold GameState.nightPostKill
  dsimp only
  refine logExt_trans
    (foldl_log_ext (GameState.investStep (GameState.roleblockedOf s0))
      (investStep_log_ext (GameState.roleblockedOf s0)) s0.night_actions_submitted _) ?_
  split
  · exact ⟨[], (List.append_nil _).symm⟩
  · exact ⟨[], (List.append_nil _).symm⟩

theorem truthyAliveTarget_some (s : GameState) (o : Option String) (X : String)
    (h : GameState.truthyAliveTarget s o = some X) :
    o = some X ∧ X ≠ "" ∧ s.isAlive X = true := by
  cases o with
  | none => simp [GameState.truthyAliveTarget] at h
  | some t =>
      simp only [GameState.truthyAliveTarget] at h
      by_cases hc : t ≠ "" ∧ s.isAlive t = true
      · rw [if_pos hc] at h
        cases h
        exact ⟨rfl, hc.1, hc.2⟩
      · rw [if_neg hc] at h
        cases h

theorem truthyAliveTarget_of (s : GameState) (X : String) (hX : X ≠ "")
    (ha : s.isAlive X = true) : GameState.truthyAliveTarget s (some X) = some X := by
  simp [GameState.truthyAliveTarget, hX, ha]

theorem alookup_foldl_protect_mono (s : GameState) (X : String) :
    ∀ (l : List (String × NightAction)) (acc : List (String × String)),
      alookup X acc ≠ none →
      alookup X (l.foldl (GameState.protectStep s) acc) ≠ none := by
  intro l
  induction l with
  | nil => intro acc h; exact h
  | cons e r ih =>
      intro acc h
      rw [List.foldl_cons]
      apply ih
      unfold GameState.protectStep
      split
      · exact h
      split
      · exact h
      split
      · split
        · split
          · rw [alookup_append]
            cases halX : alookup X acc with
            | none => exact absurd halX h
            | some v => simp
          · exact h
        · exact h
      · exact h

theorem alookup_foldl_protect_some (s : GameState) (doc X : String) (a : NightAction)
    (hrb : doc ∉ GameState.roleblockedOf s) (hdalive : s.isAlive doc = true)
    (htype : a.type = "protect")
    (htt : GameState.truthyAliveTarget s a.target = some X) :
    ∀ (l : List (String × NightAction)) (acc : List (String × String)),
      (doc, a) ∈ l →
      alookup X (l.foldl (GameState.protectStep s) acc) ≠ none := by
  intro l
  induction l with
  | nil => intro acc h; cases h
  | cons e r ih =>
      intro acc hmem
      rw [List.foldl_cons]
      cases List.mem_cons.mp hmem with
      | inl heq =>
          apply alookup_foldl_protect_mono
          rw [← heq]
          unfold GameState.protectStep
          rw [if_neg hrb, if_neg (not_not_intro hdalive), if_pos htype, htt]
          dsimp only
          split
          · next hnone =>
              rw [alookup_append, hnone]
              simp [alookup]
          · next hsome => exact hsome
      | inr hr => exact ih _ hr

theorem alookup_protectedOf_isSome (s : GameState) (doc X : String) (a : NightAction)
    (hmem : (doc, a) ∈ s.night_actions_submitted)
    (hrb : doc ∉ GameState.roleblockedOf s) (hdalive : s.isAlive doc = true)
    (htype : a.type = "protect")
    (htt : GameState.truthyAliveTarget s a.target = some X) :
    alookup X (GameState.protectedOf s) ≠ none := by
  unfold GameState.protectedOf
  exact alookup_foldl_protect_some s doc X a hrb hdalive htype htt _ [] hmem

theorem alookup_foldl_protect_none (s : GameState) (X : String) :
    ∀ (l : List (String × NightAction)) (acc : List (String × String)),
      (∀ e, e ∈ l → e.1 ∉ GameState.roleblockedOf s → s.isAlive e.1 = true →
        e.2.type = "protect" → GameState.truthyAliveTarget s e.2.target ≠ some X) →
      alookup X acc = none →
      alookup X (l.foldl (GameState.protectStep s) acc) = none := by
  intro l
  induction l with
  | nil => intro acc _ h; exact h
  | cons e r ih =>
      intro acc hno h
      rw [List.foldl_cons]
      refine ih _ (fun e2 he2 => hno e2 (List.mem_cons_of_mem e he2)) ?_
      unfold GameState.protectStep
      split
      · exact h
      next hrb =>
      split
      · exact h
      next halive =>
      split
      next htype =>
        cases htt : GameState.truthyAliveTarget s e.2.target with
        | none => exact h
        | some t =>
            dsimp only
            have htX : t ≠ X := by
              intro hc
              subst hc
              exact hno e (List.mem_cons_self e r) hrb (not_not.mp halive) htype htt
            split
            · rw [alookup_append, h]
              simp [alookup, htX]
            · exact h
      · exact h

theorem mem_killsAttemptedOf (s : GameState) (killer X : String) (b : NightAction)
    (hmem : (killer, b) ∈ s.night_actions_submitted) (htype : b.type = "kill")
    (htgt : b.target = some X) (hrb : killer ∉ GameState.roleblockedOf s)
    (hkalive : s.isAlive killer = true) (hX : X ≠ "") (hXalive : s.isAlive X = true) :
    (killer, X) ∈ GameState.killsAttemptedOf s := by
  unfold GameState.killsAttemptedOf
  rw [List.mem_filterMap]
  refine ⟨(killer, b), hmem, ?_⟩
  rw [if_neg hrb, if_neg (not_not_intro hkalive), if_pos htype, htgt,
      truthyAliveTarget_of s X hX hXalive]

theorem not_mem_successfulKills_of_protected (s : GameState) (X : String)
    (hprot : alookup X (GameState.protectedOf s) ≠ none) :
    X ∉ GameState.successfulKillsOf s := by
  unfold GameState.successfulKillsOf
  intro hX
  rw [List.mem_dedup, List.mem_map] at hX
  obtain ⟨kt, hkt, hX2⟩ := hX
  rw [List.mem_filter] at hkt
  apply hprot
  rw [← hX2]
  simpa using hkt.2

theorem mem_successfulKills (s : GameState) (killer X : String)
    (hk : (killer, X) ∈ GameState.killsAttemptedOf s)
    (hnp : alookup X (GameState.protectedOf s) = none) :
    X ∈ GameState.successfulKillsOf s := by
  unfold GameState.successfulKillsOf
  rw [List.mem_dedup, List.mem_map]
  exact ⟨(killer, X), List.mem_filter.mpr ⟨hk, by simpa using hnp⟩, rfl⟩

theorem killResolveLogStep_log_ext (prot : List (String × String)) (t : GameState)
    (kt : String × String) : LogExt t (GameState.killResolveLogStep prot t kt) := by
  unfold GameState.killResolveLogStep
  cases alookup kt.2 prot
  · exact ⟨_, rfl⟩
  · exact ⟨_, by dsimp only [GameState.logHidden]; rw [List.append_assoc]⟩

theorem killResolve_fail_log (prot : List (String × String)) (killer X d : String)
    (hd : alookup X prot = some d) :
    ∀ (kills : List (String × String)) (init : GameState), (killer, X) ∈ kills →
      ∃ e ∈ (kills.foldl (GameState.killResolveLogStep prot) init).hidden_log,
        e.actor = killer ∧
        e.info = ("Kill on " ++ X ++ " failed (protected by " ++ d ++ ").") := by
  intro kills
  induction kills with
  | nil => intro init h; cases h
  | cons kt r ih =>
      intro init hmem
      rw [List.foldl_cons]
      cases List.mem_cons.mp hmem with
      | inl heq =>
          have hstep : GameState.killResolveLogStep prot init kt
              = (init.logHidden killer
                  ("Kill on " ++ X ++ " failed (protected by " ++ d ++ ").")).logHidden
                  d ("You successfully protected " ++ X ++ " from a kill.") := by
            rw [← heq]
            unfold GameState.killResolveLogStep
            rw [hd]
          rw [hstep]
          refine ⟨{ actor := killer,
                    info := "Kill on " ++ X ++ " failed (protected by " ++ d ++ ").",
                    phase := init.phase.pname, day := init.day_count,
                    turn := init.turn_number_in_phase },
            logExt_mem (foldl_log_ext _ (killResolveLogStep_log_ext prot) r _) ?_,
            rfl, rfl⟩
          simp [GameState.logHidden]
      | inr hr => exact ih _ hr

theorem nightPreKill_fail_log (s0 : GameState) (killer X d : String)
    (hk : (killer, X) ∈ GameState.killsAttemptedOf s0)
    (hd : alookup X (GameState.protectedOf s0) = some d) :
    ∃ e ∈ (s0.nightPreKill).hidden_log, e.actor = killer ∧
      e.info = ("Kill on " ++ X ++ " failed (protected by " ++ d ++ ").") := by
  unfold GameState.nightPreKill
  dsimp only
  exact killResolve_fail_log (GameState.protectedOf s0) killer X d hd
    (GameState.killsAttemptedOf s0) _ hk

theorem nightPreKill_alive (s0 : GameState) :
    (s0.nightPreKill).alive_players = s0.alive_players :=
  congrArg (fun x => x.1) (nightPreKill_core s0)

theorem nightPreKill_dead (s0 : GameState) :
    (s0.nightPreKill).dead_players = s0.dead_players :=
  congrArg (fun x => x.2.1) (nightPreKill_core s0)

theorem nightPreKill_names (s0 : GameState) :
    (s0.nightPreKill).players.map (fun q => q.name)
      = s0.players.map (fun q => q.name) :=
  congrArg (fun x => x.2.2) (nightPreKill_core s0)

theorem resolveNight_alive (s0 : GameState) :
    (s0.resolveNight).alive_players
      = (GameState.applyKills (s0.nightPreKill)
          (GameState.successfulKillsOf s0)).1.alive_players := by
  unfold GameState.resolveNight
  dsimp only
  exact congrArg (fun x => x.1) (nightPostKill_core s0 _ _)

theorem resolveNight_dead (s0 : GameState) :
    (s0.resolveNight).dead_players
      = (GameState.applyKills (s0.nightPreKill)
          (GameState.successfulKillsOf s0)).1.dead_players := by
  unfold GameState.resolveNight
  dsimp only
  exact congrArg (fun x => x.2.1) (nightPostKill_core s0 _ _)

theorem resolveNight_log_ext_from_pre (s0 : GameState) :
    LogExt (s0.nightPreKill) (s0.resolveNight) := by
  unfold GameState.resolveNight
  dsimp only
  exact logExt_trans (applyKills_log_ext _ _) (nightPostKill_log_ext _ _ _)

/-- C2: during night resolution, (a) a protect action submitted by an alive,
non-roleblocked Doctor on an alive player X makes every submitted kill on X
fail — X is not among the successful kills, X is still alive after
`_resolve_night`, and each eligible killer targeting X gets a failure entry in
the hidden log; (b) when that Doctor is roleblocked (and no other protect
targets X), an eligible submitted kill on X succeeds and X ends up dead. -/
theorem claim_c2_protect_and_roleblock (s : GameState) (doc X : String) (a : NightAction)
    (hX : X ≠ "") (hXalive : X ∈ s.alive_players)
    (hmem : (doc, a) ∈ s.night_actions_submitted)
    (htype : a.type = "protect") (htgt : a.target = some X)
    (hndalive : s.alive_players.Nodup)
    (hXname : X ∈ s.players.map (fun q => q.name)) :
    (doc ∉ GameState.roleblockedOf s → s.isAlive doc = true →
      (X ∉ GameState.successfulKillsOf s ∧
       X ∈ (s.resolveNight).alive_players ∧
       (∀ killer b, (killer, b) ∈ s.night_actions_submitted → b.type = "kill" →
         b.target = some X → killer ∉ GameState.roleblockedOf s →
         s.isAlive killer = true →
         ∃ d, ∃ e ∈ (s.resolveNight).hidden_log, e.actor = killer ∧
           e.info = ("Kill on " ++ X ++ " failed (protected by " ++ d ++ ")."))) ) ∧
    (doc ∈ GameState.roleblockedOf s →
     (∀ d2 a2, (d2, a2) ∈ s.night_actions_submitted → a2.type = "protect" →
        a2.target = some X → d2 = doc) →
     ∀ killer b, (killer, b) ∈ s.night_actions_submitted → b.type = "kill" →
       b.target = some X → killer ∉ GameState.roleblockedOf s →
       s.isAlive killer = true →
       (X ∈ GameState.successfulKillsOf s ∧
        X ∉ (s.resolveNight).alive_players ∧
        X ∈ (s.resolveNight).dead_players)) := by
  have hXalive' : s.isAlive X = true := (isAlive_iff s X).mpr hXalive
  have htt : GameState.truthyAliveTarget s a.target = some X := by
    rw [htgt]
    exact truthyAliveTarget_of s X hX hXalive'
  constructor
  · intro hrb hdalive
    have hprot : alookup X (GameState.protectedOf s) ≠ none :=
      alookup_protectedOf_isSome s doc X a hmem hrb hdalive htype htt
    have hnotsucc : X ∉ GameState.successfulKillsOf s :=
      not_mem_successfulKills_of_protected s X hprot
    refine ⟨hnotsucc, ?_, ?_⟩
    · rw [resolveNight_alive s,
          applyKills_alive_other X (GameState.successfulKillsOf s) _ hnotsucc,
          nightPreKill_alive s]
      exact hXalive
    · intro killer b hkmem hbtype hbtgt hkrb hkalive
      cases halp : alookup X (GameState.protectedOf s) with
      | none => exact absurd halp hprot
      | some d =>
          have hka : (killer, X) ∈ GameState.killsAttemptedOf s :=
            mem_killsAttemptedOf s killer X b hkmem hbtype hbtgt hkrb hkalive hX hXalive'
          obtain ⟨e, he, hp⟩ := nightPreKill_fail_log s killer X d hka halp
          exact ⟨d, e, logExt_mem (resolveNight_log_ext_from_pre s) he, hp⟩
  · intro hdocrb honly killer b hkmem hbtype hbtgt hkrb hkalive
    have hnone : alookup X (GameState.protectedOf s) = none := by
      unfold GameState.protectedOf
      refine alookup_foldl_protect_none s X _ [] ?_ rfl
      intro e he hrb2 halive2 htype2 htt2
      obtain ⟨htgt2, _, _⟩ := truthyAliveTarget_some s e.2.target X htt2
      exact hrb2 (honly e.1 e.2 he htype2 htgt2 ▸ hdocrb)
    have hka : (killer, X) ∈ GameState.killsAttemptedOf s :=
      mem_killsAttemptedOf s killer X b hkmem hbtype hbtgt hkrb hkalive hX hXalive'
    have hsucc : X ∈ GameState.successfulKillsOf s := mem_successfulKills s killer X hka hnone
    obtain ⟨h1, h2⟩ := applyKills_kills X (GameState.successfulKillsOf s) (s.nightPreKill)
      (List.nodup_dedup _) hsucc
      (by rw [nightPreKill_alive s]; exact hXalive)
      (by rw [nightPreKill_alive s]; exact hndalive)
      (by rw [nightPreKill_names s]; exact hXname)
    refine ⟨hsucc, ?_, ?_⟩
    · rw [resolveNight_alive s]
      exact h1
    · rw [resolveNight_dead s]
      exact h2

/-- Concrete night for the C2 witness: Bob (Doctor) protects Alice, Carol
(Godfather) has submitted a kill on Alice. -/
def exStateC2 : GameState :=
  { GameState.initState
      [mkPlayer "Alice" RoleKind.villager, mkPlayer "Bob" RoleKind.doctor,
       mkPlayer "Carol" RoleKind.godfather, mkPlayer "Dave" RoleKind.villager]
      defaultConfig with
    night_actions_submitted :=
      [("Bob", { type := "protect", target := some "Alice", result := none }),
       ("Carol", { type := "kill", target := some "Alice", result := none })] }

/-- Witness for C2: in the concrete night, Alice survives and Carol's kill is
logged as failed. -/
theorem claim_c2_protect_and_roleblock_witness :
    (("Bob", ({ type := "protect", target := some "Alice", result := none } : NightAction))
        ∈ exStateC2.night_actions_submitted ∧
     "Bob" ∉ GameState.roleblockedOf exStateC2 ∧
     exStateC2.isAlive "Bob" = true) ∧
    ("Alice" ∉ GameState.successfulKillsOf exStateC2 ∧
     "Alice" ∈ (exStateC2.resolveNight).alive_players ∧
     ∃ d, ∃ e ∈ (exStateC2.resolveNight).hidden_log, e.actor = "Carol" ∧
       e.info = ("Kill on " ++ "Alice" ++ " failed (protected by " ++ d ++ ").")) := by
  have h := (claim_c2_protect_and_roleblock exStateC2 "Bob" "Alice"
    { type := "protect", target := some "Alice", result := none }
    (by decide) (by decide) (by decide) (by decide) (by decide) (by decide)
    (by decide)).1 (by decide) (by decide)
  exact ⟨⟨by decide, by decide, by decide⟩,
         h.1, h.2.1,
         h.2.2 "Carol" { type := "kill", target := some "Alice", result := none }
           (by decide) (by decide) (by decide) (by decide) (by decide)⟩

-- -------------------------------------------------------------------
-- C6: the discussion-end condition.
-- -------------------------------------------------------------------

/-- A three-villager game standing in DAY_DISCUSSION on day 1 with a player
already on trial, no logged discussion turns and no consecutive passes. -/
def exEnvC6 : MafiaEnv :=
  let env := mkEnv [mkPlayer "Alice" RoleKind.villager, mkPlayer "Bob" RoleKind.villager,
    mkPlayer "Carol" RoleKind.villager] defaultConfig
  { env with state := { env.state with
      phase := GamePhase.dayDiscussion,
      day_count := 1,
      player_on_trial := some "Bob" } }

/-- C6, counterexample: in a DAY_DISCUSSION state with a player on trial but
no logged discussion turns and no passes, the embedded
`_check_discussion_end` returns false — the player-on-trial disjunct claimed
by the spec does not exist in the code. -/
theorem claim_c6_check_discussion_end_cex :
    optTruthy exEnvC6.state.player_on_trial = true ∧
      exEnvC6.state.phase = GamePhase.dayDiscussion ∧
      (MafiaEnv.checkDiscussionEnd exEnvC6).2 = false := by
  decide

/-- C6 (amended): the embedded `_check_discussion_end` returns true iff every
alive player has accumulated at least `min_discussion_turns` (1 on day 0)
hidden-log entries recorded during DAY_DISCUSSION, or consecutive passes have
reached the number of alive players; `player_on_trial` plays no part in the
decision. -/
theorem claim_c6_check_discussion_end (env : MafiaEnv) :
    (MafiaEnv.checkDiscussionEnd env).2 = true ↔
      ((∀ p ∈ env.state.alive_players,
          (if env.state.day_count = 0 then 1 else env.config.min_discussion_turns) ≤
            MafiaEnv.discussionTurnCount env.state p) ∨
        env.state.alive_players.length ≤ env.consecutive_passes) := by
  unfold MafiaEnv.checkDiscussionEnd
  dsimp only
  split
  all_goals
    split
    next hall =>
      simp only [List.all_eq_true, decide_eq_true_eq] at hall
      exact iff_of_true rfl (Or.inl hall)
    next hall =>
      split
      next hpass => exact iff_of_true rfl (Or.inr hpass)
      next hpass =>
        apply iff_of_false
        · exact fun h => Bool.false_ne_true h
        · rintro (ha | hb)
          · exact hall (List.all_eq_true.mpr fun p hp2 => decide_eq_true (ha p hp2))
          · exact hpass hb

-- -------------------------------------------------------------------
-- C10: explicit accusations while someone is on trial.
-- -------------------------------------------------------------------

/-- C10: during DAY_DISCUSSION with day_count ≥ 1, an explicit accuse action
on a living target by a player who can speak is accepted and overwrites
`player_on_trial`, even while someone is already on trial: the first accuse
branch of `_process_day_discussion_action` returns before the
`Cannot accuse; someone is already on trial.` rejection branch can run. -/
theorem claim_c10_accuse_replaces_trial (env : MafiaEnv) (player tp : PlayerRec)
    (target w : String) (c : Option String)
    (hself : env.state.getPlayer player.name = some player)
    (hcs : player.canSpeak = true)
    (hday : env.state.day_count ≠ 0)
    (htrial : env.state.player_on_trial = some w)
    (htgt : target ≠ "")
    (htp : env.state.getPlayer target = some tp)
    (hta : tp.alive = true) :
    (MafiaEnv.processDayDiscussionAction env player (some "accuse")
        (some target) c).2 = true ∧
      (MafiaEnv.processDayDiscussionAction env player (some "accuse")
          (some target) c).1.state.player_on_trial = some target := by
  have hpa : (playerAccuse env.state player.name target).2 = true := by
    unfold playerAccuse
    rw [hself]
    dsimp only
    rw [if_neg (not_not.mpr hcs), htp]
    dsimp only
    rw [if_neg (not_not.mpr hta)]
  unfold MafiaEnv.processDayDiscussionAction
  rw [if_neg (by decide : ¬ ((some "accuse" : Option String) = some "pass"))]
  rw [if_pos ⟨rfl, by simp [optTruthy, htgt]⟩]
  rw [if_neg hday]
  dsimp only [Option.getD]
  rw [if_pos hpa]
  exact ⟨hpa, rfl⟩

/-- A three-villager game on day 1 with Carol already on trial, used to
instantiate the C10 theorem. -/
def exEnvC10 : MafiaEnv :=
  let env := mkEnv [mkPlayer "Alice" RoleKind.villager, mkPlayer "Bob" RoleKind.villager,
    mkPlayer "Carol" RoleKind.villager] defaultConfig
  { env with state := { env.state with
      phase := GamePhase.dayDiscussion,
      day_count := 1,
      current_player_turn := some "Alice",
      player_on_trial := some "Carol" } }

/-- C10 witness: Alice's explicit accusation of Bob succeeds and puts Bob on
trial although Carol was already on trial. -/
theorem claim_c10_accuse_replaces_trial_witness :
    (MafiaEnv.processDayDiscussionAction exEnvC10 (mkPlayer "Alice" RoleKind.villager)
        (some "accuse") (some "Bob") none).2 = true ∧
      (MafiaEnv.processDayDiscussionAction exEnvC10 (mkPlayer "Alice" RoleKind.villager)
          (some "accuse") (some "Bob") none).1.state.player_on_trial = some "Bob" :=
  claim_c10_accuse_replaces_trial exEnvC10 (mkPlayer "Alice" RoleKind.villager)
    (mkPlayer "Bob" RoleKind.villager) "Bob" "Carol" none (by decide) (by decide)
    (by decide) (by decide) (by decide) (by decide) (by decide)



-- -------------------------------------------------------------------
-- C7: tag handling of speak actions on the live path.
-- -------------------------------------------------------------------

/-- A two-villager game in DAY_DISCUSSION on day 1 with Alice holding the
turn and Bob queued to speak next. -/
def exEnvC7 : MafiaEnv :=
  let env := mkEnv [mkPlayer "Alice" RoleKind.villager, mkPlayer "Bob" RoleKind.villager]
    defaultConfig
  { env with
      speaker_queue := ["Bob"],
      state := { env.state with
        phase := GamePhase.dayDiscussion,
        day_count := 1,
        current_player_turn := some "Alice" } }

/-- A speak action whose content embeds an accuse tag. -/
def exActC7 : ActionRec :=
  { action := some "speak", target := none,
    content := some "I suspect <accuse>Bob</accuse> strongly",
    predicted_role := none, prediction := none, vote_type := none }

/-- C7: a DAY_DISCUSSION speak action whose content embeds an accuse tag is
accepted, the tag parser does extract the accuse body, yet the publicly
logged message is the raw content with the tags still present and the accuse
tag has no effect (no trial is started): the live speak path of
`process_player_action` logs `content` unchanged, and the tag-stripping
`clean_content = strip_tags(content)` line sits in a dead branch calling a
function that is defined nowhere. -/
theorem claim_c7_speak_logs_raw_content :
    (MafiaEnv.processPlayerAction exEnvC7 "Alice" exActC7).2 = true ∧
      ((MafiaEnv.processPlayerAction exEnvC7 "Alice" exActC7).1.state.messages.map
          (fun m => (m.msg_type, m.sender, m.content))).getLast? =
        some ("public", "Alice", "I suspect <accuse>Bob</accuse> strongly") ∧
      (parseSpeakTags "I suspect <accuse>Bob</accuse> strongly").accuse = ["Bob"] ∧
      (MafiaEnv.processPlayerAction exEnvC7 "Alice" exActC7).1.state.player_on_trial =
        none := by
  decide

-- -------------------------------------------------------------------
-- C8: the 3-questions cap and its missing per-day reset.
-- -------------------------------------------------------------------

/-- Five villagers in DAY_DISCUSSION on day 1, Alice holding the turn. -/
def exEnvC8 : MafiaEnv :=
  let env := mkEnv [mkPlayer "Alice" RoleKind.villager, mkPlayer "Bob" RoleKind.villager,
    mkPlayer "Carol" RoleKind.villager, mkPlayer "Dave" RoleKind.villager,
    mkPlayer "Eve" RoleKind.villager] defaultConfig
  { env with
      speaker_queue := ["Bob", "Carol", "Dave", "Eve"],
      state := { env.state with
        phase := GamePhase.dayDiscussion,
        day_count := 1,
        current_player_turn := some "Alice" } }

/-- A speak action embedding a question tag for one target. -/
def speakQ (t : String) : ActionRec :=
  { action := some "speak", target := none,
    content := some ("<question>" ++ t ++ "</question> what say you"),
    predicted_role := none, prediction := none, vote_type := none }

/-- Hand the discussion turn back to a player (models the Q&A queue having
cycled back between two question rounds). -/
def giveTurn (env : MafiaEnv) (n : String) : MafiaEnv :=
  { env with state := { env.state with current_player_turn := some n } }

/-- After Alice's first question-initiating round. -/
def c8r1 : MafiaEnv := (MafiaEnv.processPlayerAction exEnvC8 "Alice" (speakQ "Bob")).1

/-- After her second. -/
def c8r2 : MafiaEnv :=
  (MafiaEnv.processPlayerAction (giveTurn c8r1 "Alice") "Alice" (speakQ "Carol")).1

/-- After her third. -/
def c8r3 : MafiaEnv :=
  (MafiaEnv.processPlayerAction (giveTurn c8r2 "Alice") "Alice" (speakQ "Dave")).1

/-- Her fourth question-initiating round the same day. -/
def c8a4 : MafiaEnv × Bool :=
  MafiaEnv.processPlayerAction (giveTurn c8r3 "Alice") "Alice" (speakQ "Eve")

/-- The transition to day 2 (`_transition_to_day`, which runs
`reset_day_phase_state` and `_start_new_discussion_round`). -/
def c8day2 : MafiaEnv := MafiaEnv.transitionToDay c8a4.1

/-- A fresh question-initiating round by Alice on day 2. -/
def c8a5 : MafiaEnv × Bool := MafiaEnv.processPlayerAction c8day2 "Alice" (speakQ "Eve")

/-- C8: Alice's first three question rounds succeed (her counter reaches 3),
her fourth round the same day is silently dropped (the speech is still
publicly logged, the target is not recorded and a limit log entry appears)
— and after the transition to day 2 the counter still reads 3, so a fresh
question round on the next day is dropped as well: `_question_rounds_taken`
is never reset. -/
theorem claim_c8_question_cap_never_resets :
    alookup "Alice" c8r1.question_rounds_taken = some 1 ∧
      alookup "Alice" c8r3.question_rounds_taken = some 3 ∧
      (c8a4.2 = true ∧
        (c8a4.1.state.messages.map (fun m => (m.msg_type, m.content))).getLast? =
          some ("public", "<question>Eve</question> what say you") ∧
        (c8a4.1.state.getPlayer "Alice").map
          (fun p => alookup "Eve" p.questions_asked_today) = some none ∧
        (c8a4.1.state.hidden_log.filter
          (fun e => e.info = "Question round limit reached (3).")).length = 1) ∧
      (c8day2.state.day_count = 2 ∧
        c8day2.state.current_player_turn = some "Alice" ∧
        alookup "Alice" c8day2.question_rounds_taken = some 3) ∧
      (c8a5.2 = true ∧
        c8a5.1.question_queue = [] ∧
        (c8a5.1.state.hidden_log.filter
          (fun e => e.info = "Question round limit reached (3).")).length = 2) := by
  decide

-- -------------------------------------------------------------------
-- C9: roleblocked Cop and the timing of memory recording.
-- -------------------------------------------------------------------

/-- A Cop targeting Victor and a RoleBlocker targeting the Cop, at night. -/
def exEnvC9 : MafiaEnv :=
  let env := mkEnv [mkPlayer "Cara" RoleKind.cop, mkPlayer "Rita" RoleKind.roleBlocker,
    mkPlayer "Victor" RoleKind.villager] defaultConfig
  { env with state := { env.state with players :=
      [{ mkPlayer "Cara" RoleKind.cop with night_target := some "Victor" },
       { mkPlayer "Rita" RoleKind.roleBlocker with night_target := some "Cara" },
       mkPlayer "Victor" RoleKind.villager] } }

/-- A plain night action submission. -/
def nightAct : ActionRec :=
  { action := some "night_action", target := none, content := none,
    predicted_role := none, prediction := none, vote_type := none }

/-- After the Cop submits her investigation. -/
def c9e1 : MafiaEnv := (MafiaEnv.processPlayerAction exEnvC9 "Cara" nightAct).1

/-- After the RoleBlocker submits the block on the Cop. -/
def c9e2 : MafiaEnv := (MafiaEnv.processPlayerAction c9e1 "Rita" nightAct).1

/-- The resolved night. -/
def c9final : GameState := c9e2.state.resolveNight

/-- C9: the Cop submits an investigation and is roleblocked the same night;
night resolution does withhold her entry in `night_action_results`, but the
investigation result was already written into her memory when the action was
submitted (`Cop.night_action` appends to `player.memory` at submission time,
before roleblocks are known), and it is still there after resolution. -/
theorem claim_c9_blocked_cop_keeps_memory :
    alookup "Cara" c9e2.state.night_actions_submitted =
        some { type := "investigate", target := some "Victor", result := some "town" } ∧
      "Cara" ∈ GameState.roleblockedOf c9e2.state ∧
      alookup "Cara" c9final.night_action_results = none ∧
      ((c9e2.state.getPlayer "Cara").map PlayerRec.memory) =
        some [MemoryEntry.investigationResult 0 "Victor" "town"] ∧
      ((c9final.getPlayer "Cara").map PlayerRec.memory) =
        some [MemoryEntry.investigationResult 0 "Victor" "town"] := by
  decide


end Mafia
